import Mathlib

/-!
# Lab 1 (polygons): a shallow embedding of `src/main.cpp`

The program draws a triangle, a quad or a regular N-gon and reacts to six keys.
This file embeds

* the mesh handle `MeshGL` with `destroy` and `buildIndexedMesh`,
* the three generators `makeTriangle`, `makeQuad`, `makeNGon`,
* `setWindowTitle`, the edge detector `pressedOnce`, and one iteration of the
  render loop of `main` (`step`), together with the loop itself (`run`).

Conventions.

* A C++ `int` is an `Int`; an `int` operation whose mathematical result does
  not fit in 32 bits is undefined behaviour and is modelled as `none`.
* Calls into OpenGL / GLFW are recorded, in program order, as a list of
  `Effect`s.  Values that come back from those libraries (generated object
  names, polled key states, a close request of the window system) are inputs.
* Floating point values are kept symbolic (`FloatExpr`); nothing below depends
  on their numeric value.
-/

namespace Lab1

/-! ## Machine integers -/

def INT_MIN : Int := -2147483648
def INT_MAX : Int := 2147483647

/-- Value of a signed 32-bit computation: `none` when it is not representable. -/
def checkedInt (x : Int) : Option Int :=
  if x < INT_MIN ∨ INT_MAX < x then none else some x

/-- The C++ operator `%` on `int` (truncated remainder, undefined for a zero
divisor and for `INT_MIN % -1`). -/
def checkedMod (a b : Int) : Option Int :=
  if b = 0 ∨ (a = INT_MIN ∧ b = -1) then none else checkedInt (Int.tmod a b)

/-- Conversion `int → unsigned int`. -/
def toUnsigned (x : Int) : Nat := (x % 4294967296).toNat

/-- Conversion `size_t → GLsizei` (a 32-bit signed integer). -/
def toGLsizei (n : Nat) : Int := ((n : Int) + 2147483648) % 4294967296 - 2147483648

/-- The argument of `std::vector::reserve`, an `int` converted to `size_t`: a
negative value becomes larger than `max_size()` and `reserve` throws. -/
def reserve (n : Int) : Option Unit :=
  if n < 0 then none else some ()

/-! ## GLFW constants (from `GLFW/glfw3.h`) -/

def GLFW_RELEASE : Int := 0
def GLFW_PRESS : Int := 1
def GLFW_KEY_1 : Nat := 49
def GLFW_KEY_2 : Nat := 50
def GLFW_KEY_3 : Nat := 51
def GLFW_KEY_ESCAPE : Nat := 256
def GLFW_KEY_DOWN : Nat := 264
def GLFW_KEY_UP : Nat := 265
def GLFW_KEY_LAST : Nat := 348

/-! ## Data model -/

/-- Symbolic `float` values: a decimal literal `mantissa / 10 ^ decimals`, and
the two ring coordinates `r * cos (2 * PI * i / N)` and `r * sin (2 * PI * i / N)`. -/
inductive FloatExpr where
  | lit (mantissa : Int) (decimals : Nat)
  | ringX (i N : Int)
  | ringY (i N : Int)
  deriving DecidableEq, Repr

inductive Mode where
  | TRIANGLE
  | QUAD
  | NGON
  deriving DecidableEq, Repr

/-- The struct `MeshGL`; a default-constructed mesh is all zero. -/
structure MeshGL where
  VAO : Nat := 0
  VBO : Nat := 0
  EBO : Nat := 0
  indexCount : Int := 0
  deriving DecidableEq, Repr

/-- Object names handed out by `glGenVertexArrays` / `glGenBuffers` during one
call of `buildIndexedMesh`. -/
structure GLNames where
  vao : Nat
  vbo : Nat
  ebo : Nat
  deriving DecidableEq, Repr

/-- Calls into OpenGL and GLFW, in the order the program issues them. -/
inductive Effect where
  | genVertexArrays (name : Nat)
  | bindVertexArray (name : Nat)
  | genBuffers (name : Nat)
  | bindArrayBuffer (name : Nat)
  | bindElementBuffer (name : Nat)
  | arrayBufferData (bytes : Nat) (data : List FloatExpr)
  | elementBufferData (bytes : Nat) (data : List Nat)
  | vertexAttribPointer (index size stride : Nat)
  | enableVertexAttribArray (index : Nat)
  | deleteBuffers (name : Nat)
  | deleteVertexArrays (name : Nat)
  | pollEvents
  | getKey (key : Nat)
  | glfwSetWindowShouldClose
  | glfwSetWindowTitle (title : String)
  | clear
  | useShader
  | getTime
  | uniformMatrix4fv
  | uniform3f (x y z : FloatExpr)
  | drawElements (count : Int)
  | useProgram (program : Nat)
  | swapBuffers
  deriving DecidableEq, Repr

/-! ## `MeshGL::destroy` and `buildIndexedMesh` -/

/-- The method `MeshGL::destroy`: the mesh afterwards and the delete calls issued. -/
def MeshGL.destroy (m : MeshGL) : MeshGL × List Effect :=
  let e1 := if m.EBO ≠ 0 then [Effect.deleteBuffers m.EBO] else []
  let e2 := if m.VBO ≠ 0 then [Effect.deleteBuffers m.VBO] else []
  let e3 := if m.VAO ≠ 0 then [Effect.deleteVertexArrays m.VAO] else []
  ({ VAO := 0, VBO := 0, EBO := 0, indexCount := 0 }, e1 ++ e2 ++ e3)

/-- The function `buildIndexedMesh(positions, indices)`, given the names the GL hands out. -/
def buildIndexedMesh (g : GLNames) (positions : List FloatExpr) (indices : List Nat) :
    MeshGL × List Effect :=
  ({ VAO := g.vao, VBO := g.vbo, EBO := g.ebo, indexCount := toGLsizei indices.length },
   [ Effect.genVertexArrays g.vao,
     Effect.bindVertexArray g.vao,
     Effect.genBuffers g.vbo,
     Effect.bindArrayBuffer g.vbo,
     Effect.arrayBufferData (positions.length * 4) positions,
     Effect.genBuffers g.ebo,
     Effect.bindElementBuffer g.ebo,
     Effect.elementBufferData (indices.length * 4) indices,
     Effect.vertexAttribPointer 0 3 12,
     Effect.enableVertexAttribArray 0,
     Effect.bindVertexArray 0 ])

/-! ## Shape generators -/

/-- The vector `pos` of `makeTriangle`. -/
def trianglePos : List FloatExpr :=
  [ .lit (-6) 1, .lit (-5) 1, .lit 0 1,
    .lit 6 1, .lit (-5) 1, .lit 0 1,
    .lit 0 1, .lit 6 1, .lit 0 1 ]

/-- The vector `idx` of `makeTriangle`. -/
def triangleIdx : List Nat := [0, 1, 2]

def makeTriangle (g : GLNames) : MeshGL × List Effect :=
  buildIndexedMesh g trianglePos triangleIdx

/-- The vector `pos` of `makeQuad`. -/
def quadPos : List FloatExpr :=
  [ .lit (-6) 1, .lit (-5) 1, .lit 0 1,
    .lit 6 1, .lit (-5) 1, .lit 0 1,
    .lit 6 1, .lit 5 1, .lit 0 1,
    .lit (-6) 1, .lit 5 1, .lit 0 1 ]

/-- The vector `idx` of `makeQuad`. -/
def quadIdx : List Nat := [0, 1, 2, 0, 2, 3]

def makeQuad (g : GLNames) : MeshGL × List Effect :=
  buildIndexedMesh g quadPos quadIdx

/-- The loop `for(int i=0;i<N;i++)` of `makeNGon`, entered with counter `i` and
vector `pos`; the first argument bounds the number of loop tests. -/
def ringLoop (N : Int) : Nat → Int → List FloatExpr → Option (List FloatExpr)
  | 0, _, _ => none
  | fuel + 1, i, pos =>
    if i < N then
      let pos1 := pos ++ [FloatExpr.ringX i N, FloatExpr.ringY i N, FloatExpr.lit 0 1]
      match checkedInt (i + 1) with
      | none => none
      | some i1 => ringLoop N fuel i1 pos1
    else some pos

/-- The loop `for(int i=1;i<=N;i++)` of `makeNGon`, entered with counter `i` and
vector `idx`; the first argument bounds the number of loop tests. -/
def fanLoop (N : Int) : Nat → Int → List Nat → Option (List Nat)
  | 0, _, _ => none
  | fuel + 1, i, idx =>
    if i ≤ N then
      let a : Nat := 0
      let b : Nat := toUnsigned i
      match checkedMod i N with
      | none => none
      | some r =>
        match checkedInt (r + 1) with
        | none => none
        | some c1 =>
          let c : Nat := toUnsigned c1
          match checkedInt (i + 1) with
          | none => none
          | some i1 => fanLoop N fuel i1 (idx ++ [a, b, c])
    else some idx

/-- The two vectors `pos` and `idx` that `makeNGon(N)` hands to
`buildIndexedMesh`; `none` when the call does not get that far. -/
def makeNGonData (N : Int) : Option (List FloatExpr × List Nat) :=
  match checkedInt (N + 1) with
  | none => none
  | some n1 =>
  match checkedInt (n1 * 3) with
  | none => none
  | some cap =>
  match reserve cap with
  | none => none
  | some _ =>
  match ringLoop N (N.toNat + 1) 0 [FloatExpr.lit 0 1, FloatExpr.lit 0 1, FloatExpr.lit 0 1] with
  | none => none
  | some pos =>
  match checkedInt (N * 3) with
  | none => none
  | some cap2 =>
  match reserve cap2 with
  | none => none
  | some _ =>
  match fanLoop N (N.toNat + 1) 1 [] with
  | none => none
  | some idx => some (pos, idx)

/-- The function `makeNGon(N)`. -/
def makeNGon (N : Int) (g : GLNames) : Option (MeshGL × List Effect) :=
  match makeNGonData N with
  | none => none
  | some d => some (buildIndexedMesh g d.1 d.2)

/-! ## Window title -/

/-- The string that `setWindowTitle(w, mode, N)` passes to `glfwSetWindowTitle`. -/
def setWindowTitle (mode : Mode) (N : Int) : String :=
  let title := "Lab 1 - Polygons | Mode: "
  if mode = Mode.TRIANGLE then title ++ "Triangle"
  else if mode = Mode.QUAD then title ++ "Quad"
  else title ++ ("N-gon (N=" ++ toString N ++ ")")

/-! ## Input: one event per press -/

/-- The lambda `pressedOnce`, given the table `prev` and the value `cur` that
`glfwGetKey(w, key)` returns: whether it fired, and the table afterwards. -/
def pressedOnce (prev : Nat → Int) (key : Nat) (cur : Int) : Bool × (Nat → Int) :=
  let fired := (cur == GLFW_PRESS && prev key != GLFW_PRESS)
  (fired, fun k => if k = key then cur else prev k)

/-! ## The render loop -/

/-- The variables of `main` that live across loop iterations, the static table
`prev`, and the two pieces of window state the program writes. -/
structure State where
  tri : MeshGL
  quad : MeshGL
  ngon : MeshGL
  N : Int
  mode : Mode
  prev : Nat → Int
  title : String
  shouldClose : Bool

/-- What the outside world supplies during one loop iteration. -/
structure Frame where
  /-- Result of `glfwGetKey(w, key)` after this iteration's `glfwPollEvents`. -/
  key : Nat → Int
  /-- The window system asked to close the window during `glfwPollEvents`. -/
  closeRequested : Bool
  /-- Names returned by `glGen*` if a mesh is built in this iteration. -/
  names : GLNames

/-- Line 189: `if (pressedOnce(GLFW_KEY_ESCAPE)) glfwSetWindowShouldClose(w, GLFW_TRUE);` -/
def pollEscape (s : State) (f : Frame) : State × List Effect :=
  let r := pressedOnce s.prev GLFW_KEY_ESCAPE (f.key GLFW_KEY_ESCAPE)
  if r.1 then
    ({ s with prev := r.2, shouldClose := true },
      [Effect.getKey GLFW_KEY_ESCAPE, Effect.glfwSetWindowShouldClose])
  else ({ s with prev := r.2 }, [Effect.getKey GLFW_KEY_ESCAPE])

/-- Lines 193-195: `if (pressedOnce(key)) { mode = m; setWindowTitle(w, mode, N); }` -/
def selectMode (key : Nat) (m : Mode) (s : State) (f : Frame) : State × List Effect :=
  let r := pressedOnce s.prev key (f.key key)
  if r.1 then
    ({ s with prev := r.2, mode := m, title := setWindowTitle m s.N },
      [Effect.getKey key, Effect.glfwSetWindowTitle (setWindowTitle m s.N)])
  else ({ s with prev := r.2 }, [Effect.getKey key])

/-- Lines 189-195: the quit key and the three mode keys, in program order. -/
def modeKeys (s : State) (f : Frame) : State × List Effect :=
  let r0 := pollEscape s f
  let r1 := selectMode GLFW_KEY_1 Mode.TRIANGLE r0.1 f
  let r2 := selectMode GLFW_KEY_2 Mode.QUAD r1.1 f
  let r3 := selectMode GLFW_KEY_3 Mode.NGON r2.1 f
  (r3.1, r0.2 ++ r1.2 ++ r2.2 ++ r3.2)

/-- Line 202: `if (pressedOnce(GLFW_KEY_UP)) { N = std::min(64, N+1); rebuild = true; }` -/
def stepUp (fired : Bool) (N : Int) : Option Int :=
  if fired then
    match checkedInt (N + 1) with
    | none => none
    | some n => some (min 64 n)
  else some N

/-- Line 203: `if (pressedOnce(GLFW_KEY_DOWN)) { N = std::max(3, N-1); rebuild = true; }` -/
def stepDown (fired : Bool) (N : Int) : Option Int :=
  if fired then
    match checkedInt (N - 1) with
    | none => none
    | some n => some (max 3 n)
  else some N

/-- Lines 199-210: the block `if (mode == Mode::NGON) { ... }`. -/
def adjustN (s : State) (f : Frame) : Option (State × List Effect) :=
  if s.mode = Mode.NGON then
    let up := pressedOnce s.prev GLFW_KEY_UP (f.key GLFW_KEY_UP)
    match stepUp up.1 s.N with
    | none => none
    | some n1 =>
      let down := pressedOnce up.2 GLFW_KEY_DOWN (f.key GLFW_KEY_DOWN)
      match stepDown down.1 n1 with
      | none => none
      | some n2 =>
        let polls := [Effect.getKey GLFW_KEY_UP, Effect.getKey GLFW_KEY_DOWN]
        if up.1 || down.1 then
          let d := s.ngon.destroy
          match makeNGon n2 f.names with
          | none => none
          | some b =>
            some ({ s with N := n2, prev := down.2, ngon := b.1,
                           title := setWindowTitle s.mode n2 },
                  polls ++ d.2 ++ b.2 ++ [Effect.glfwSetWindowTitle (setWindowTitle s.mode n2)])
        else some ({ s with N := n2, prev := down.2 }, polls)
  else some (s, [])

/-- The mesh `*drawMesh` of lines 230-232. -/
def drawMesh (s : State) : MeshGL :=
  let m0 := s.tri
  let m1 := if s.mode = Mode.QUAD then s.quad else m0
  if s.mode = Mode.NGON then s.ngon else m1

/-- The vector `color` of lines 223-226. -/
def modeColor (mode : Mode) : FloatExpr × FloatExpr × FloatExpr :=
  let c0 : FloatExpr × FloatExpr × FloatExpr := (.lit 2 1, .lit 9 1, .lit 7 1)
  let c1 := if mode = Mode.TRIANGLE then (.lit 95 2, .lit 55 2, .lit 20 2) else c0
  let c2 := if mode = Mode.QUAD then (.lit 35 2, .lit 70 2, .lit 100 2) else c1
  if mode = Mode.NGON then (.lit 75 2, .lit 85 2, .lit 30 2) else c2

/-- Lines 212-240: clear, set the uniforms, draw the selected mesh, present.
The matrix uploaded by `glUniformMatrix4fv` depends on `glfwGetTime()` and is
not recorded. -/
def render (s : State) : List Effect :=
  [ Effect.clear, Effect.useShader, Effect.getTime, Effect.uniformMatrix4fv,
    Effect.uniform3f (modeColor s.mode).1 (modeColor s.mode).2.1 (modeColor s.mode).2.2,
    Effect.bindVertexArray (drawMesh s).VAO,
    Effect.drawElements (drawMesh s).indexCount,
    Effect.bindVertexArray 0, Effect.useProgram 0, Effect.swapBuffers ]

/-- One iteration of the `while` loop of `main` (lines 178-240). -/
def step (s : State) (f : Frame) : Option (State × List Effect) :=
  let s0 := { s with shouldClose := s.shouldClose || f.closeRequested }
  let r1 := modeKeys s0 f
  match adjustN r1.1 f with
  | none => none
  | some r2 => some (r2.1, [Effect.pollEvents] ++ r1.2 ++ r2.2 ++ render r2.1)

/-- The `while (!glfwWindowShouldClose(w))` loop, run on the given frames: the
state in which it stops and the calls it has issued. -/
def run (s : State) : List Frame → Option (State × List Effect)
  | [] => some (s, [])
  | f :: fs =>
    if s.shouldClose then some (s, [])
    else
      match step s f with
      | none => none
      | some r =>
        match run r.1 fs with
        | none => none
        | some q => some (q.1, r.2 ++ q.2)

/-- Lines 243-245: the three `destroy()` calls after the loop. -/
def shutdown (s : State) : State × List Effect :=
  let t := s.tri.destroy
  let q := s.quad.destroy
  let n := s.ngon.destroy
  ({ s with tri := t.1, quad := q.1, ngon := n.1 }, t.2 ++ q.2 ++ n.2)

/-- Lines 160-168: the state of `main` when the loop is entered. -/
def initState (gt gq gn : GLNames) : Option State :=
  let tri := makeTriangle gt
  let quad := makeQuad gq
  let N : Int := 8
  match makeNGon N gn with
  | none => none
  | some ngon =>
    let mode := Mode.TRIANGLE
    some { tri := tri.1, quad := quad.1, ngon := ngon.1, N := N, mode := mode,
           prev := fun _ => 0, title := setWindowTitle mode N, shouldClose := false }

/-- States of `main` at the loop head. -/
inductive Reachable : State → Prop where
  | init (gt gq gn : GLNames) (s : State) :
      initState gt gq gn = some s → Reachable s
  | next (s : State) (f : Frame) (r : State × List Effect) :
      Reachable s → s.shouldClose = false → step s f = some r → Reachable r.1

/-! ## Specification-side definitions -/

/-- Three floats pushed for ring vertex `i`. -/
def ringTriple (N : Int) (i : Nat) : List FloatExpr :=
  [FloatExpr.ringX (i : Int) N, FloatExpr.ringY (i : Int) N, FloatExpr.lit 0 1]

/-- Three indices pushed for fan triangle `i`. -/
def fanTriple (N : Nat) (i : Nat) : List Nat := [0, i, i % N + 1]

/-- The vector `pos` for a regular polygon with `N` corners: the centre, then
the ring vertices `0 .. N-1`. -/
def ngonPositions (N : Nat) : List FloatExpr :=
  [FloatExpr.lit 0 1, FloatExpr.lit 0 1, FloatExpr.lit 0 1]
    ++ (List.range' 0 N).flatMap (ringTriple (N : Int))

/-- The concatenation, for `i = 1 .. N` in increasing order, of the triples
`(0, i, (i mod N) + 1)`. -/
def fanIndices (N : Nat) : List Nat := (List.range' 1 N).flatMap (fanTriple N)

/-- Reading of an index buffer by `GL_TRIANGLES`: consecutive groups of three. -/
def triangles : List Nat → List (Nat × Nat × Nat)
  | a :: b :: c :: rest => (a, b, c) :: triangles rest
  | _ => []

/-- The side of triangle `t` opposite to its first corner joins `u` and `v`. -/
def hasOuterEdge (t : Nat × Nat × Nat) (u v : Nat) : Bool :=
  (t.2.1 == u && t.2.2 == v) || (t.2.1 == v && t.2.2 == u)

/-- The table `prev` as the program sets it up: all zero. -/
def prevInit : Nat → Int := fun _ => 0

/-- Successive evaluations of `pressedOnce(key)`, one for each polled value in
the list, starting from the given table: the list of results. -/
def pollKey (key : Nat) : (Nat → Int) → List Int → List Bool
  | _, [] => []
  | prev, cur :: rest =>
    (pressedOnce prev key cur).1 :: pollKey key (pressedOnce prev key cur).2 rest

/-- The table after the same evaluations. -/
def pollTable (key : Nat) : (Nat → Int) → List Int → (Nat → Int)
  | prev, [] => prev
  | prev, cur :: rest => pollTable key (pressedOnce prev key cur).2 rest

/-- Key `key` is pressed in frame `f` and was not pressed when the program
last looked at it. -/
def pressEdge (s : State) (f : Frame) (key : Nat) : Prop :=
  f.key key = GLFW_PRESS ∧ s.prev key ≠ GLFW_PRESS

instance (s : State) (f : Frame) (key : Nat) : Decidable (pressEdge s f key) := by
  unfold pressEdge
  exact inferInstance

/-- The mode selected by the keys 1, 2, 3 of a frame: the last of the three
`if` statements whose key has a press edge wins. -/
def modeAfter (s : State) (f : Frame) : Mode :=
  if pressEdge s f GLFW_KEY_3 then Mode.NGON
  else if pressEdge s f GLFW_KEY_2 then Mode.QUAD
  else if pressEdge s f GLFW_KEY_1 then Mode.TRIANGLE
  else s.mode

/-- The keys asked for with `glfwGetKey`, in the order of the calls. -/
def polls (tr : List Effect) : List Nat :=
  tr.filterMap (fun e => match e with
    | Effect.getKey k => some k
    | _ => none)

/-- The text the window title has to show for a mode and a value of `N`. -/
def titleText (mode : Mode) (N : Int) : String :=
  match mode with
  | Mode.TRIANGLE => "Lab 1 - Polygons | Mode: Triangle"
  | Mode.QUAD => "Lab 1 - Polygons | Mode: Quad"
  | Mode.NGON => "Lab 1 - Polygons | Mode: N-gon (N=" ++ toString N ++ ")"

/-- A frame in which exactly the listed keys are down. -/
def keyFrame (down : List Nat) (g : GLNames) : Frame :=
  { key := fun k => if k ∈ down then GLFW_PRESS else GLFW_RELEASE,
    closeRequested := false,
    names := g }

/-- One discrete press of a key: the key is down for `hold` frames, then no
key is down for `idle` frames. -/
def tap (key : Nat) (g : GLNames) (hold idle : Nat) : List Frame :=
  List.replicate hold (keyFrame [key] g) ++ List.replicate idle (keyFrame [] g)

/-- The same discrete press, `n` times. -/
def taps (key : Nat) (g : GLNames) (hold idle n : Nat) : List Frame :=
  (List.replicate n (tap key g hold idle)).flatten

/-- Number of floats of each position upload in a trace, in order. -/
def positionUploads (tr : List Effect) : List Nat :=
  tr.filterMap (fun e => match e with
    | Effect.arrayBufferData _ data => some data.length
    | _ => none)

/-- Number of indices of each index upload in a trace, in order. -/
def indexUploads (tr : List Effect) : List Nat :=
  tr.filterMap (fun e => match e with
    | Effect.elementBufferData _ data => some data.length
    | _ => none)

/-- The state of `main` at the loop head for fixed object names. -/
def startState : Option State := initState ⟨1, 2, 3⟩ ⟨4, 5, 6⟩ ⟨7, 8, 9⟩

/-- Names handed out for meshes rebuilt in the scenario. -/
def rebuildNames : GLNames := ⟨7, 8, 9⟩

/-- The scenario of the specification: press 3, then UP six times, then DOWN
twelve times, every press held for `hold` frames and followed by `idle` frames
without a key. -/
def scenario (hold idle : Nat) (ups downs : Nat) : List Frame :=
  tap GLFW_KEY_3 rebuildNames hold idle
    ++ taps GLFW_KEY_UP rebuildNames hold idle ups
    ++ taps GLFW_KEY_DOWN rebuildNames hold idle downs

/-- What the scenario looks at: mode, `N`, title, the N-gon mesh, and the sizes
of the last position upload (in floats) and the last index upload. -/
structure Observation where
  mode : Mode
  N : Int
  title : String
  ngon : MeshGL
  positionFloats : Option Nat
  indices : Option Nat
  deriving DecidableEq, Repr

/-- The observation after running the loop on the given frames from the start. -/
def observe (frames : List Frame) : Option Observation :=
  match startState with
  | none => none
  | some s =>
    match run s frames with
    | none => none
    | some q =>
      some { mode := q.1.mode, N := q.1.N, title := q.1.title, ngon := q.1.ngon,
             positionFloats := (positionUploads q.2).getLast?,
             indices := (indexUploads q.2).getLast? }

/-- Value of `N` after line 202, given whether UP had a press edge. -/
def upN (edge : Prop) [Decidable edge] (N : Int) : Int :=
  if edge then min 64 (N + 1) else N

/-- Value of `N` after line 203, given whether DOWN had a press edge. -/
def downN (edge : Prop) [Decidable edge] (N : Int) : Int :=
  if edge then max 3 (N - 1) else N

/-- Value of `N` after the block of lines 199-210 when it is entered. -/
def adjustedN (s : State) (f : Frame) : Int :=
  downN (pressEdge s f GLFW_KEY_DOWN) (upN (pressEdge s f GLFW_KEY_UP) s.N)

/-- What the loop maintains: `N` is clamped, the title shows the mode and `N`,
and the N-gon mesh is the one built for the current `N`. -/
def Inv (s : State) : Prop :=
  3 ≤ s.N ∧ s.N ≤ 64 ∧ s.title = setWindowTitle s.mode s.N
    ∧ ∃ g, s.ngon = (buildIndexedMesh g (ngonPositions s.N.toNat) (fanIndices s.N.toNat)).1

/-- A loop state with the given mode and `N`, no key remembered as pressed. -/
def sampleState (mode : Mode) (N : Int) : State :=
  { tri := (makeTriangle ⟨1, 2, 3⟩).1, quad := (makeQuad ⟨4, 5, 6⟩).1,
    ngon := (buildIndexedMesh ⟨7, 8, 9⟩ (ngonPositions N.toNat) (fanIndices N.toNat)).1,
    N := N, mode := mode, prev := prevInit, title := setWindowTitle mode N, shouldClose := false }

/-- The six keys the loop looks at. -/
def trackedKeys : List Nat :=
  [GLFW_KEY_ESCAPE, GLFW_KEY_1, GLFW_KEY_2, GLFW_KEY_3, GLFW_KEY_UP, GLFW_KEY_DOWN]

/-- The calls of lines 189-195 in a frame: every key is asked for, and a key
with a press edge is followed at once by its own action. -/
def keyTrace (s : State) (f : Frame) : List Effect :=
  (Effect.getKey GLFW_KEY_ESCAPE
      :: (if pressEdge s f GLFW_KEY_ESCAPE then [Effect.glfwSetWindowShouldClose] else []))
  ++ (Effect.getKey GLFW_KEY_1
      :: (if pressEdge s f GLFW_KEY_1 then
            [Effect.glfwSetWindowTitle (setWindowTitle Mode.TRIANGLE s.N)] else []))
  ++ (Effect.getKey GLFW_KEY_2
      :: (if pressEdge s f GLFW_KEY_2 then
            [Effect.glfwSetWindowTitle (setWindowTitle Mode.QUAD s.N)] else []))
  ++ (Effect.getKey GLFW_KEY_3
      :: (if pressEdge s f GLFW_KEY_3 then
            [Effect.glfwSetWindowTitle (setWindowTitle Mode.NGON s.N)] else []))

/-- The calls of lines 199-210 in a frame: nothing unless the mode after the
mode keys is N-gon; then UP and DOWN are asked for, and a press edge on either
is followed by the rebuild of the N-gon mesh and a new title. -/
def adjustTrace (s : State) (f : Frame) : List Effect :=
  if modeAfter s f = Mode.NGON then
    [Effect.getKey GLFW_KEY_UP, Effect.getKey GLFW_KEY_DOWN]
    ++ (if pressEdge s f GLFW_KEY_UP ∨ pressEdge s f GLFW_KEY_DOWN then
          s.ngon.destroy.2
          ++ (buildIndexedMesh f.names (ngonPositions (adjustedN s f).toNat)
                (fanIndices (adjustedN s f).toNat)).2
          ++ [Effect.glfwSetWindowTitle (setWindowTitle Mode.NGON (adjustedN s f))]
        else [])
  else []

/-! ## Arithmetic helpers -/

theorem checkedInt_of_range {x : Int} (h1 : INT_MIN ≤ x) (h2 : x ≤ INT_MAX) :
    checkedInt x = some x := by
  unfold checkedInt
  rw [if_neg (by omega)]

theorem checkedInt_natCast {n : Nat} (h : n ≤ 2147483647) : checkedInt (n : Int) = some (n : Int) := by
  apply checkedInt_of_range
  · simp only [INT_MIN]; omega
  · simp only [INT_MAX]; omega

theorem toUnsigned_natCast {n : Nat} (h : n < 4294967296) : toUnsigned (n : Int) = n := by
  unfold toUnsigned
  have : ((n : Int) % 4294967296) = (n : Int) := Int.emod_eq_of_lt (by omega) (by omega)
  rw [this]; simp

theorem toGLsizei_of_lt {n : Nat} (h : n < 2147483648) : toGLsizei n = (n : Int) := by
  unfold toGLsizei
  have : ((n : Int) + 2147483648) % 4294967296 = (n : Int) + 2147483648 :=
    Int.emod_eq_of_lt (by omega) (by omega)
  rw [this]; omega

theorem checkedMod_natCast {i n : Nat} (hn : 0 < n) (hi : i ≤ 2147483647) :
    checkedMod (i : Int) (n : Int) = some ((i % n : Nat) : Int) := by
  unfold checkedMod
  have h0 : ¬ ((n : Int) = 0 ∨ ((i : Int) = INT_MIN ∧ (n : Int) = -1)) := by
    simp only [INT_MIN]; omega
  rw [if_neg h0]
  have : Int.tmod (i : Int) (n : Int) = ((i % n : Nat) : Int) := by
    rw [Int.tmod_eq_emod (by omega) (by omega)]; simp
  rw [this]
  apply checkedInt_natCast
  have := Nat.mod_le i n
  omega

/-! ## The two loops of `makeNGon` -/

theorem ringLoop_spec (N : Nat) (hN : N ≤ 2147483647) :
    ∀ (m k fuel : Nat) (pos : List FloatExpr), k + m = N → m + 1 ≤ fuel →
      ringLoop (N : Int) fuel (k : Int) pos
        = some (pos ++ (List.range' k m).flatMap (ringTriple (N : Int))) := by
  intro m
  induction m with
  | zero =>
    intro k fuel pos hk hf
    obtain ⟨fuel, rfl⟩ : ∃ f, fuel = f + 1 := ⟨fuel - 1, by omega⟩
    have : ¬ ((k : Int) < (N : Int)) := by omega
    rw [ringLoop, if_neg this]
    simp
  | succ m ih =>
    intro k fuel pos hk hf
    obtain ⟨fuel, rfl⟩ : ∃ f, fuel = f + 1 := ⟨fuel - 1, by omega⟩
    have hlt : (k : Int) < (N : Int) := by omega
    have hc : checkedInt ((k : Int) + 1) = some (((k + 1 : Nat) : Int)) := by
      have := checkedInt_natCast (n := k + 1) (by omega)
      simpa using this
    rw [ringLoop, if_pos hlt]
    simp only [hc]
    rw [ih (k + 1) fuel _ (by omega) (by omega)]
    simp [List.range', ringTriple, List.flatMap_cons]

theorem fanLoop_spec (N : Nat) (hN : N < 2147483647) :
    ∀ (m k fuel : Nat) (idx : List Nat), 1 ≤ k → k + m = N + 1 → m + 1 ≤ fuel →
      fanLoop (N : Int) fuel (k : Int) idx
        = some (idx ++ (List.range' k m).flatMap (fanTriple N)) := by
  intro m
  induction m with
  | zero =>
    intro k fuel idx h1 hk hf
    obtain ⟨fuel, rfl⟩ : ∃ f, fuel = f + 1 := ⟨fuel - 1, by omega⟩
    have : ¬ ((k : Int) ≤ (N : Int)) := by omega
    rw [fanLoop, if_neg this]
    simp
  | succ m ih =>
    intro k fuel idx h1 hk hf
    obtain ⟨fuel, rfl⟩ : ∃ f, fuel = f + 1 := ⟨fuel - 1, by omega⟩
    have hle : (k : Int) ≤ (N : Int) := by omega
    have hNpos : 0 < N := by omega
    have hmod : checkedMod (k : Int) (N : Int) = some ((k % N : Nat) : Int) :=
      checkedMod_natCast hNpos (by omega)
    have hlt : k % N < N := Nat.mod_lt _ hNpos
    have hc1 : checkedInt (((k % N : Nat) : Int) + 1) = some (((k % N + 1 : Nat) : Int)) := by
      have := checkedInt_natCast (n := k % N + 1) (by omega)
      simpa using this
    have hc : checkedInt ((k : Int) + 1) = some (((k + 1 : Nat) : Int)) := by
      have := checkedInt_natCast (n := k + 1) (by omega)
      simpa using this
    have hu1 : toUnsigned (k : Int) = k := toUnsigned_natCast (by omega)
    have hu2 : toUnsigned ((k % N + 1 : Nat) : Int) = k % N + 1 := toUnsigned_natCast (by omega)
    rw [fanLoop, if_pos hle]
    simp only [hmod, hc1, hc, hu1, hu2]
    rw [ih (k + 1) fuel _ (by omega) (by omega) (by omega)]
    simp [List.range', fanTriple, List.flatMap_cons]

theorem makeNGonData_eq (N : Nat) (hN : 3 * (N + 1) ≤ 2147483647) :
    makeNGonData (N : Int) = some (ngonPositions N, fanIndices N) := by
  have h1 : checkedInt ((N : Int) + 1) = some (((N + 1 : Nat) : Int)) := by
    have := checkedInt_natCast (n := N + 1) (by omega)
    simpa using this
  have h2 : checkedInt ((((N + 1 : Nat) : Int)) * 3) = some ((((N + 1) * 3 : Nat) : Int)) := by
    have := checkedInt_natCast (n := (N + 1) * 3) (by omega)
    simpa using this
  have h3 : checkedInt ((N : Int) * 3) = some (((N * 3 : Nat) : Int)) := by
    have := checkedInt_natCast (n := N * 3) (by omega)
    simpa using this
  have r1 : reserve ((((N + 1) * 3 : Nat) : Int)) = some () := by
    unfold reserve; rw [if_neg (by omega)]
  have r2 : reserve (((N * 3 : Nat) : Int)) = some () := by
    unfold reserve; rw [if_neg (by omega)]
  have hr := ringLoop_spec N (by omega) N 0 (N + 1)
    [FloatExpr.lit 0 1, FloatExpr.lit 0 1, FloatExpr.lit 0 1] (by omega) (by omega)
  have hf := fanLoop_spec N (by omega) N 1 (N + 1) [] (by omega) (by omega) (by omega)
  simp only [Nat.cast_zero, Nat.cast_one] at hr hf
  rw [makeNGonData]
  simp only [h1, h2, h3, r1, r2, Int.toNat_ofNat, hr, hf]
  simp [ngonPositions, fanIndices]

/-! ## Counting and membership for the generated vectors -/

theorem length_flatMap_const {α β : Type} (f : α → List β) (c : Nat)
    (h : ∀ a, (f a).length = c) : ∀ l : List α, (l.flatMap f).length = l.length * c := by
  intro l
  induction l with
  | nil => simp
  | cons a l ih => simp [List.flatMap_cons, ih, h, Nat.succ_mul, Nat.add_comm]

theorem ngonPositions_length (N : Nat) : (ngonPositions N).length = 3 * (N + 1) := by
  unfold ngonPositions
  rw [List.length_append, length_flatMap_const (ringTriple (N : Int)) 3 (fun _ => rfl)]
  simp
  omega

theorem fanIndices_length (N : Nat) : (fanIndices N).length = 3 * N := by
  unfold fanIndices
  rw [length_flatMap_const (fanTriple N) 3 (fun _ => rfl)]
  simp
  omega

theorem mem_fanIndices {N x : Nat} (h : x ∈ fanIndices N) : x < N + 1 := by
  unfold fanIndices at h
  rw [List.mem_flatMap] at h
  obtain ⟨i, hi, hx⟩ := h
  rw [List.mem_range'_1] at hi
  have hN : 0 < N := by omega
  have hm : i % N < N := Nat.mod_lt _ hN
  simp only [fanTriple, List.mem_cons, List.mem_singleton, List.not_mem_nil, or_false] at hx
  omega

theorem triangles_flatMap_fanTriple (N : Nat) (l : List Nat) :
    triangles (l.flatMap (fanTriple N)) = l.map (fun i => (0, i, i % N + 1)) := by
  induction l with
  | nil => rfl
  | cons a l ih =>
    rw [List.flatMap_cons, List.map_cons, ← ih]
    rfl

theorem triangles_fanIndices (N : Nat) :
    triangles (fanIndices N) = (List.range' 1 N).map (fun i => (0, i, i % N + 1)) :=
  triangles_flatMap_fanTriple N _

theorem next_ne_prev {N i k : Nat} (hN : 3 ≤ N) (hi1 : 1 ≤ i) (hiN : i ≤ N)
    (hkN : k ≤ N) (h1 : i = k % N + 1) (h2 : i % N + 1 = k) : False := by
  rcases Nat.lt_or_ge k N with hk | hk
  · rw [Nat.mod_eq_of_lt hk] at h1
    rcases Nat.lt_or_ge i N with hi | hi
    · rw [Nat.mod_eq_of_lt hi] at h2; omega
    · have : i = N := by omega
      subst this
      rw [Nat.mod_self] at h2; omega
  · have : k = N := by omega
    subst this
    rw [Nat.mod_self] at h1
    subst h1
    rw [Nat.mod_eq_of_lt (by omega)] at h2
    omega

theorem countP_outerEdge (N k : Nat) (hN : 3 ≤ N) (hk1 : 1 ≤ k) (hkN : k ≤ N) :
    (triangles (fanIndices N)).countP (fun t => hasOuterEdge t k (k % N + 1)) = 1 := by
  rw [triangles_fanIndices, List.countP_map]
  have hcongr : ∀ i ∈ List.range' 1 N,
      ((fun t => hasOuterEdge t k (k % N + 1)) ∘ (fun i => (0, i, i % N + 1))) i
        = (fun i => i == k) i := by
    intro i hi
    rw [List.mem_range'_1] at hi
    by_cases hik : i = k
    · subst hik; simp [hasOuterEdge]
    · have hne : ¬ (i = k % N + 1 ∧ i % N + 1 = k) := fun h =>
        next_ne_prev hN hi.1 (by omega) hkN h.1 h.2
      have hf : (i == k) = false := by simpa using hik
      have hg : (i == k % N + 1 && i % N + 1 == k) = false := by
        rw [Bool.eq_false_iff]
        intro h
        simp only [Bool.and_eq_true, beq_iff_eq] at h
        exact hne h
      simp only [Function.comp, hasOuterEdge, hf, hg, Bool.false_and, Bool.or_false]
  rw [List.countP_congr (fun i hi => by rw [hcongr i hi])]
  have hnd : (List.range' 1 N).Nodup := List.nodup_range' 1 N
  have hmem : k ∈ List.range' 1 N := by rw [List.mem_range'_1]; omega
  have := List.count_eq_one_of_mem hnd hmem
  simpa [List.count] using this

theorem fanIndices_drop_last (N : Nat) (hN : 1 ≤ N) :
    (fanIndices N).drop (3 * (N - 1)) = [0, N, 1] := by
  obtain ⟨n, rfl⟩ : ∃ n, N = n + 1 := ⟨N - 1, by omega⟩
  unfold fanIndices
  rw [List.range'_concat, List.flatMap_append]
  have hl : ((List.range' 1 n).flatMap (fanTriple (n + 1))).length = 3 * (n + 1 - 1) := by
    rw [length_flatMap_const (fanTriple (n + 1)) 3 (fun _ => rfl)]
    simp; omega
  rw [← hl, List.drop_left]
  simp [fanTriple, Nat.add_comm]


/-! ## Edge detection -/

theorem pressedOnce_fired (prev : Nat → Int) (key : Nat) (cur : Int) :
    (pressedOnce prev key cur).1 = true ↔ cur = GLFW_PRESS ∧ prev key ≠ GLFW_PRESS := by
  simp [pressedOnce]

theorem pressedOnce_table_self (prev : Nat → Int) (key : Nat) (cur : Int) :
    (pressedOnce prev key cur).2 key = cur := by
  simp [pressedOnce]

theorem pressedOnce_table_other (prev : Nat → Int) (key k : Nat) (cur : Int) (h : k ≠ key) :
    (pressedOnce prev key cur).2 k = prev k := by
  simp [pressedOnce, h]

theorem pollKey_length (key : Nat) : ∀ (cs : List Int) (prev : Nat → Int),
    (pollKey key prev cs).length = cs.length := by
  intro cs
  induction cs with
  | nil => intro prev; rfl
  | cons c cs ih => intro prev; simp [pollKey, ih]

theorem pollKey_getElem (key : Nat) : ∀ (cs : List Int) (prev : Nat → Int) (i : Nat),
    (pollKey key prev cs)[i]? = some true ↔
      (cs[i]? = some GLFW_PRESS ∧
        (if i = 0 then prev key ≠ GLFW_PRESS else cs[i - 1]? ≠ some GLFW_PRESS)) := by
  intro cs
  induction cs with
  | nil => intro prev i; simp [pollKey]
  | cons c cs ih =>
    intro prev i
    cases i with
    | zero =>
      simp only [pollKey, List.getElem?_cons_zero, Option.some.injEq, if_pos]
      exact pressedOnce_fired prev key c
    | succ j =>
      simp only [pollKey, List.getElem?_cons_succ, Nat.add_sub_cancel]
      rw [ih, pressedOnce_table_self]
      cases j with
      | zero => simp
      | succ j => simp

theorem pollKey_append (key : Nat) : ∀ (a b : List Int) (prev : Nat → Int),
    pollKey key prev (a ++ b) = pollKey key prev a ++ pollKey key (pollTable key prev a) b := by
  intro a
  induction a with
  | nil => intro b prev; rfl
  | cons c a ih => intro b prev; simp [pollKey, pollTable, ih]

theorem pollTable_key (key : Nat) : ∀ (cs : List Int) (prev : Nat → Int),
    pollTable key prev cs key = cs.getLast?.getD (prev key) := by
  intro cs
  induction cs with
  | nil => intro prev; rfl
  | cons c cs ih =>
    intro prev
    rw [pollTable, ih, pressedOnce_table_self]
    cases cs with
    | nil => rfl
    | cons d ds =>
      rw [List.getLast?_cons_cons]
      obtain ⟨x, hx⟩ : ∃ x, (d :: ds).getLast? = some x :=
        ⟨_, List.getLast?_eq_getLast (d :: ds) (by simp)⟩
      rw [hx]; rfl

theorem pollKey_held (key : Nat) : ∀ (n : Nat) (prev : Nat → Int), prev key = GLFW_PRESS →
    pollKey key prev (List.replicate n GLFW_PRESS) = List.replicate n false := by
  intro n
  induction n with
  | zero => intro prev _; rfl
  | succ n ih =>
    intro prev h
    rw [List.replicate_succ, pollKey, ih _ (pressedOnce_table_self prev key _)]
    have : (pressedOnce prev key GLFW_PRESS).1 = false := by
      simp [pressedOnce, h]
    rw [this, List.replicate_succ]

theorem pollKey_press (key : Nat) (n : Nat) (prev : Nat → Int) (h : prev key ≠ GLFW_PRESS) :
    pollKey key prev (List.replicate (n + 1) GLFW_PRESS) = true :: List.replicate n false := by
  rw [List.replicate_succ, pollKey, pollKey_held key n _ (pressedOnce_table_self prev key _)]
  have : (pressedOnce prev key GLFW_PRESS).1 = true := by
    rw [pressedOnce_fired]; exact ⟨rfl, h⟩
  rw [this]

theorem pollKey_released (key : Nat) : ∀ (m : Nat) (prev : Nat → Int),
    pollKey key prev (List.replicate m GLFW_RELEASE) = List.replicate m false := by
  intro m
  induction m with
  | zero => intro prev; rfl
  | succ m ih =>
    intro prev
    rw [List.replicate_succ, pollKey, ih]
    have : (pressedOnce prev key GLFW_RELEASE).1 = false := by
      simp [pressedOnce, GLFW_RELEASE, GLFW_PRESS]
    rw [this, List.replicate_succ]

theorem pollKey_hold_after (key : Nat) (pre : List Int) (n : Nat)
    (h : pre.getLast? ≠ some GLFW_PRESS) :
    pollKey key prevInit (pre ++ List.replicate (n + 1) GLFW_PRESS)
      = pollKey key prevInit pre ++ true :: List.replicate n false := by
  rw [pollKey_append, pollKey_press]
  rw [pollTable_key]
  cases hl : pre.getLast? with
  | none => simp [prevInit, GLFW_PRESS]
  | some c =>
    rw [hl] at h
    simpa using h

theorem count_true_replicate_false (n : Nat) : (List.replicate n false).count true = 0 := by
  simp [List.count_replicate]

/-! ## The mode keys -/

theorem pressedOnce_fired_decide (prev : Nat → Int) (f : Frame) (key : Nat) (s : State)
    (h : prev key = s.prev key) :
    (pressedOnce prev key (f.key key)).1 = decide (pressEdge s f key) := by
  rw [Bool.eq_iff_iff]
  simp [pressedOnce, pressEdge, h]

theorem setWindowTitle_eq_titleText (mode : Mode) (N : Int) : setWindowTitle mode N = titleText mode N := by
  cases mode
  · simp only [setWindowTitle, titleText, if_true]; decide
  · simp only [setWindowTitle, titleText]
    rw [if_neg (by decide), if_pos trivial]; decide
  · simp only [setWindowTitle, titleText]
    rw [if_neg (by decide), if_neg (by decide)]
    have h : "Lab 1 - Polygons | Mode: " ++ "N-gon (N=" = "Lab 1 - Polygons | Mode: N-gon (N=" := by
      decide
    rw [← h, String.append_assoc, String.append_assoc, String.append_assoc]

theorem pressedOnce_table (prev : Nat → Int) (key : Nat) (cur : Int) :
    (pressedOnce prev key cur).2 = (fun k => if k = key then cur else prev k) := rfl

theorem pollEscape_fields (s : State) (f : Frame) :
    (pollEscape s f).1.N = s.N ∧ (pollEscape s f).1.tri = s.tri
    ∧ (pollEscape s f).1.quad = s.quad ∧ (pollEscape s f).1.ngon = s.ngon
    ∧ (pollEscape s f).1.mode = s.mode ∧ (pollEscape s f).1.title = s.title
    ∧ (pollEscape s f).1.shouldClose = (s.shouldClose || decide (pressEdge s f GLFW_KEY_ESCAPE))
    ∧ (pollEscape s f).1.prev
        = (fun k => if k = GLFW_KEY_ESCAPE then f.key GLFW_KEY_ESCAPE else s.prev k)
    ∧ polls (pollEscape s f).2 = [GLFW_KEY_ESCAPE] := by
  by_cases h : pressEdge s f GLFW_KEY_ESCAPE
  · simp [pollEscape, pressedOnce_fired_decide s.prev f GLFW_KEY_ESCAPE s rfl, h,
      pressedOnce_table, polls]
  · simp [pollEscape, pressedOnce_fired_decide s.prev f GLFW_KEY_ESCAPE s rfl, h,
      pressedOnce_table, polls]

theorem selectMode_fields (key : Nat) (m : Mode) (s : State) (f : Frame) :
    (selectMode key m s f).1.N = s.N ∧ (selectMode key m s f).1.tri = s.tri
    ∧ (selectMode key m s f).1.quad = s.quad ∧ (selectMode key m s f).1.ngon = s.ngon
    ∧ (selectMode key m s f).1.shouldClose = s.shouldClose
    ∧ (selectMode key m s f).1.mode = (if pressEdge s f key then m else s.mode)
    ∧ (selectMode key m s f).1.title
        = (if pressEdge s f key then setWindowTitle m s.N else s.title)
    ∧ (selectMode key m s f).1.prev = (fun k => if k = key then f.key key else s.prev k)
    ∧ polls (selectMode key m s f).2 = [key] := by
  by_cases h : pressEdge s f key
  · simp [selectMode, pressedOnce_fired_decide s.prev f key s rfl, h, pressedOnce_table, polls]
  · simp [selectMode, pressedOnce_fired_decide s.prev f key s rfl, h, pressedOnce_table, polls]

theorem pressEdge_congr (s t : State) (f : Frame) (key : Nat) (h : t.prev key = s.prev key) :
    pressEdge t f key ↔ pressEdge s f key := by
  unfold pressEdge
  rw [h]

theorem polls_append (a b : List Effect) : polls (a ++ b) = polls a ++ polls b := by
  unfold polls
  rw [List.filterMap_append]

theorem modeKeys_spec (s : State) (f : Frame) :
    (modeKeys s f).1.N = s.N ∧ (modeKeys s f).1.tri = s.tri
    ∧ (modeKeys s f).1.quad = s.quad ∧ (modeKeys s f).1.ngon = s.ngon
    ∧ (modeKeys s f).1.mode = modeAfter s f
    ∧ (modeKeys s f).1.shouldClose = (s.shouldClose || decide (pressEdge s f GLFW_KEY_ESCAPE))
    ∧ (∀ k, (modeKeys s f).1.prev k
        = if k = GLFW_KEY_ESCAPE ∨ k = GLFW_KEY_1 ∨ k = GLFW_KEY_2 ∨ k = GLFW_KEY_3
          then f.key k else s.prev k)
    ∧ (s.title = setWindowTitle s.mode s.N →
        (modeKeys s f).1.title = setWindowTitle (modeAfter s f) s.N)
    ∧ polls (modeKeys s f).2 = [GLFW_KEY_ESCAPE, GLFW_KEY_1, GLFW_KEY_2, GLFW_KEY_3] := by
  obtain ⟨a1, a2, a3, a4, a5, a6, a7, a8, a9⟩ := pollEscape_fields s f
  obtain ⟨b1, b2, b3, b4, b5, b6, b7, b8, b9⟩ :=
    selectMode_fields GLFW_KEY_1 Mode.TRIANGLE (pollEscape s f).1 f
  obtain ⟨c1, c2, c3, c4, c5, c6, c7, c8, c9⟩ :=
    selectMode_fields GLFW_KEY_2 Mode.QUAD (selectMode GLFW_KEY_1 Mode.TRIANGLE (pollEscape s f).1 f).1 f
  obtain ⟨d1, d2, d3, d4, d5, d6, d7, d8, d9⟩ :=
    selectMode_fields GLFW_KEY_3 Mode.NGON
      (selectMode GLFW_KEY_2 Mode.QUAD
        (selectMode GLFW_KEY_1 Mode.TRIANGLE (pollEscape s f).1 f).1 f).1 f
  have e1 : pressEdge (pollEscape s f).1 f GLFW_KEY_1 ↔ pressEdge s f GLFW_KEY_1 :=
    pressEdge_congr _ _ _ _ (by rw [a8]; simp [GLFW_KEY_1, GLFW_KEY_ESCAPE])
  have e2 : pressEdge (selectMode GLFW_KEY_1 Mode.TRIANGLE (pollEscape s f).1 f).1 f GLFW_KEY_2
      ↔ pressEdge s f GLFW_KEY_2 :=
    pressEdge_congr _ _ _ _ (by rw [b8, a8]; simp [GLFW_KEY_1, GLFW_KEY_2, GLFW_KEY_ESCAPE])
  have e3 : pressEdge (selectMode GLFW_KEY_2 Mode.QUAD
        (selectMode GLFW_KEY_1 Mode.TRIANGLE (pollEscape s f).1 f).1 f).1 f GLFW_KEY_3
      ↔ pressEdge s f GLFW_KEY_3 :=
    pressEdge_congr _ _ _ _ (by
      rw [c8, b8, a8]; simp [GLFW_KEY_1, GLFW_KEY_2, GLFW_KEY_3, GLFW_KEY_ESCAPE])
  simp only [e1] at b6 b7
  simp only [e2] at c6 c7
  simp only [e3] at d6 d7
  have hmode : (modeKeys s f).1.mode = modeAfter s f := by
    show (selectMode GLFW_KEY_3 Mode.NGON _ f).1.mode = _
    rw [d6, c6, b6, a5]
    rfl
  refine ⟨?_, ?_, ?_, ?_, hmode, ?_, ?_, ?_, ?_⟩
  · show (selectMode GLFW_KEY_3 Mode.NGON _ f).1.N = _
    rw [d1, c1, b1, a1]
  · show (selectMode GLFW_KEY_3 Mode.NGON _ f).1.tri = _
    rw [d2, c2, b2, a2]
  · show (selectMode GLFW_KEY_3 Mode.NGON _ f).1.quad = _
    rw [d3, c3, b3, a3]
  · show (selectMode GLFW_KEY_3 Mode.NGON _ f).1.ngon = _
    rw [d4, c4, b4, a4]
  · show (selectMode GLFW_KEY_3 Mode.NGON _ f).1.shouldClose = _
    rw [d5, c5, b5, a7]
  · intro k
    show (selectMode GLFW_KEY_3 Mode.NGON _ f).1.prev k = _
    rw [d8, c8, b8, a8]
    by_cases h3 : k = GLFW_KEY_3
    · subst h3; simp
    · by_cases h2 : k = GLFW_KEY_2
      · subst h2; simp [GLFW_KEY_2, GLFW_KEY_3]
      · by_cases h1 : k = GLFW_KEY_1
        · subst h1; simp [GLFW_KEY_1, GLFW_KEY_2, GLFW_KEY_3]
        · by_cases h0 : k = GLFW_KEY_ESCAPE
          · subst h0; simp [GLFW_KEY_1, GLFW_KEY_2, GLFW_KEY_3, GLFW_KEY_ESCAPE]
          · simp [h0, h1, h2, h3]
  · intro ht
    show (selectMode GLFW_KEY_3 Mode.NGON _ f).1.title = _
    rw [d7, c7, b7, a6, c1, b1, a1]
    unfold modeAfter
    by_cases h3 : pressEdge s f GLFW_KEY_3
    · simp [h3]
    · by_cases h2 : pressEdge s f GLFW_KEY_2
      · simp [h3, h2]
      · by_cases h1 : pressEdge s f GLFW_KEY_1
        · simp [h3, h2, h1, b1, a1]
        · simp [h3, h2, h1, ht]
  · show polls (_ ++ _ ++ _ ++ _) = _
    rw [polls_append, polls_append, polls_append, a9, b9, c9, d9]
    rfl

/-! ## The block that adjusts `N` -/

theorem makeNGon_of_range (N : Int) (h3 : 3 ≤ N) (h64 : N ≤ 64) (g : GLNames) :
    makeNGon N g = some (buildIndexedMesh g (ngonPositions N.toNat) (fanIndices N.toNat)) := by
  obtain ⟨n, rfl⟩ : ∃ n : Nat, N = (n : Int) := ⟨N.toNat, by omega⟩
  unfold makeNGon
  rw [makeNGonData_eq n (by omega)]
  simp

theorem stepUp_eq (b : Prop) [Decidable b] (N : Int) (h3 : 3 ≤ N) (h64 : N ≤ 64) :
    stepUp (decide b) N = some (upN b N) := by
  unfold stepUp upN
  by_cases h : b
  · have hc : checkedInt (N + 1) = some (N + 1) :=
      checkedInt_of_range (by simp only [INT_MIN]; omega) (by simp only [INT_MAX]; omega)
    simp [h, hc]
  · simp [h]

theorem stepDown_eq (b : Prop) [Decidable b] (N : Int) (h3 : 3 ≤ N) (h64 : N ≤ 64) :
    stepDown (decide b) N = some (downN b N) := by
  unfold stepDown downN
  by_cases h : b
  · have hc : checkedInt (N - 1) = some (N - 1) :=
      checkedInt_of_range (by simp only [INT_MIN]; omega) (by simp only [INT_MAX]; omega)
    simp [h, hc]
  · simp [h]

theorem upN_range (b : Prop) [Decidable b] (N : Int) (h3 : 3 ≤ N) (h64 : N ≤ 64) :
    3 ≤ upN b N ∧ upN b N ≤ 64 := by
  unfold upN
  split <;> omega

theorem downN_range (b : Prop) [Decidable b] (N : Int) (h3 : 3 ≤ N) (h64 : N ≤ 64) :
    3 ≤ downN b N ∧ downN b N ≤ 64 := by
  unfold downN
  split <;> omega

theorem adjustedN_range (s : State) (f : Frame) (h3 : 3 ≤ s.N) (h64 : s.N ≤ 64) :
    3 ≤ adjustedN s f ∧ adjustedN s f ≤ 64 := by
  unfold adjustedN
  have h := upN_range (pressEdge s f GLFW_KEY_UP) s.N h3 h64
  exact downN_range _ _ h.1 h.2

theorem polls_destroy (m : MeshGL) : polls m.destroy.2 = [] := by
  unfold MeshGL.destroy polls
  by_cases h1 : m.EBO = 0 <;> by_cases h2 : m.VBO = 0 <;> by_cases h3 : m.VAO = 0 <;>
    simp [h1, h2, h3]

theorem polls_build (g : GLNames) (p : List FloatExpr) (i : List Nat) :
    polls (buildIndexedMesh g p i).2 = [] := rfl

theorem polls_render (s : State) : polls (render s) = [] := rfl

theorem adjustN_other (s : State) (f : Frame) (hm : s.mode ≠ Mode.NGON) :
    adjustN s f = some (s, []) := by
  unfold adjustN
  rw [if_neg hm]

theorem adjustN_ngon (s : State) (f : Frame) (hm : s.mode = Mode.NGON)
    (h3 : 3 ≤ s.N) (h64 : s.N ≤ 64) :
    adjustN s f =
      some (if pressEdge s f GLFW_KEY_UP ∨ pressEdge s f GLFW_KEY_DOWN then
          ({ s with
              N := adjustedN s f,
              prev := fun k => if k = GLFW_KEY_DOWN then f.key GLFW_KEY_DOWN
                        else if k = GLFW_KEY_UP then f.key GLFW_KEY_UP else s.prev k,
              ngon := (buildIndexedMesh f.names (ngonPositions (adjustedN s f).toNat)
                        (fanIndices (adjustedN s f).toNat)).1,
              title := setWindowTitle s.mode (adjustedN s f) },
            [Effect.getKey GLFW_KEY_UP, Effect.getKey GLFW_KEY_DOWN] ++ s.ngon.destroy.2
              ++ (buildIndexedMesh f.names (ngonPositions (adjustedN s f).toNat)
                        (fanIndices (adjustedN s f).toNat)).2
              ++ [Effect.glfwSetWindowTitle (setWindowTitle s.mode (adjustedN s f))])
        else
          ({ s with
              N := adjustedN s f,
              prev := fun k => if k = GLFW_KEY_DOWN then f.key GLFW_KEY_DOWN
                        else if k = GLFW_KEY_UP then f.key GLFW_KEY_UP else s.prev k },
            [Effect.getKey GLFW_KEY_UP, Effect.getKey GLFW_KEY_DOWN])) := by
  have hu := pressedOnce_fired_decide s.prev f GLFW_KEY_UP s rfl
  have hd := pressedOnce_fired_decide
    (pressedOnce s.prev GLFW_KEY_UP (f.key GLFW_KEY_UP)).2 f GLFW_KEY_DOWN s
    (by simp [pressedOnce, GLFW_KEY_DOWN, GLFW_KEY_UP])
  have r1 := upN_range (pressEdge s f GLFW_KEY_UP) s.N h3 h64
  have r2 := adjustedN_range s f h3 h64
  have hb := makeNGon_of_range (adjustedN s f) r2.1 r2.2 f.names
  unfold adjustN
  rw [if_pos hm]
  simp only [hu, hd, stepUp_eq _ _ h3 h64, stepDown_eq _ _ r1.1 r1.2]
  have hn : downN (pressEdge s f GLFW_KEY_DOWN) (upN (pressEdge s f GLFW_KEY_UP) s.N)
      = adjustedN s f := rfl
  simp only [hn, hb, pressedOnce_table]
  by_cases h : pressEdge s f GLFW_KEY_UP ∨ pressEdge s f GLFW_KEY_DOWN
  · rw [if_pos h]
    have : (decide (pressEdge s f GLFW_KEY_UP) || decide (pressEdge s f GLFW_KEY_DOWN)) = true := by
      simpa using h
    simp [this]
  · rw [if_neg h]
    have : (decide (pressEdge s f GLFW_KEY_UP) || decide (pressEdge s f GLFW_KEY_DOWN)) = false := by
      rw [Bool.eq_false_iff]
      simpa using h
    simp [this]

/-! ## One loop iteration -/

theorem adjustedN_congr (s t : State) (f : Frame) (hN : t.N = s.N)
    (hu : t.prev GLFW_KEY_UP = s.prev GLFW_KEY_UP)
    (hd : t.prev GLFW_KEY_DOWN = s.prev GLFW_KEY_DOWN) :
    adjustedN t f = adjustedN s f := by
  have e1 := pressEdge_congr s t f GLFW_KEY_UP hu
  have e2 := pressEdge_congr s t f GLFW_KEY_DOWN hd
  unfold adjustedN upN downN
  simp only [e1, e2, hN]

theorem adjustedN_no_edge (s : State) (f : Frame)
    (h : ¬ (pressEdge s f GLFW_KEY_UP ∨ pressEdge s f GLFW_KEY_DOWN)) :
    adjustedN s f = s.N := by
  unfold adjustedN upN downN
  rw [not_or] at h
  simp [h.1, h.2]

theorem step_spec (s : State) (f : Frame) (h3 : 3 ≤ s.N) (h64 : s.N ≤ 64) :
    ∃ r, step s f = some r
      ∧ r.1.mode = modeAfter s f
      ∧ r.1.N = (if modeAfter s f = Mode.NGON then adjustedN s f else s.N)
      ∧ r.1.tri = s.tri ∧ r.1.quad = s.quad
      ∧ r.1.ngon =
          (if modeAfter s f = Mode.NGON
              ∧ (pressEdge s f GLFW_KEY_UP ∨ pressEdge s f GLFW_KEY_DOWN) then
            (buildIndexedMesh f.names (ngonPositions (adjustedN s f).toNat)
              (fanIndices (adjustedN s f).toNat)).1
          else s.ngon)
      ∧ (s.title = setWindowTitle s.mode s.N → r.1.title = setWindowTitle r.1.mode r.1.N)
      ∧ (∀ k, r.1.prev k =
          if k = GLFW_KEY_ESCAPE ∨ k = GLFW_KEY_1 ∨ k = GLFW_KEY_2 ∨ k = GLFW_KEY_3 then f.key k
          else if (k = GLFW_KEY_UP ∨ k = GLFW_KEY_DOWN) ∧ modeAfter s f = Mode.NGON then f.key k
          else s.prev k)
      ∧ polls r.2 = [GLFW_KEY_ESCAPE, GLFW_KEY_1, GLFW_KEY_2, GLFW_KEY_3]
          ++ (if modeAfter s f = Mode.NGON then [GLFW_KEY_UP, GLFW_KEY_DOWN] else [])
      ∧ r.1.shouldClose
          = (s.shouldClose || f.closeRequested || decide (pressEdge s f GLFW_KEY_ESCAPE))
      ∧ (∃ pre, r.2 = pre ++ render r.1) := by
  obtain ⟨m1, m2, m3, m4, m5, m6, m7, m8, m9⟩ :=
    modeKeys_spec { s with shouldClose := s.shouldClose || f.closeRequested } f
  have hma : modeAfter { s with shouldClose := s.shouldClose || f.closeRequested } f
      = modeAfter s f := rfl
  rw [hma] at m5 m8
  simp only [] at m1 m2 m3 m4 m6 m7 m8
  have hpu := m7 GLFW_KEY_UP
  have hpd := m7 GLFW_KEY_DOWN
  simp only [GLFW_KEY_UP, GLFW_KEY_DOWN, GLFW_KEY_ESCAPE, GLFW_KEY_1, GLFW_KEY_2, GLFW_KEY_3,
    Nat.reduceEqDiff, or_self, if_false] at hpu hpd
  have hadj := adjustedN_congr s _ f m1 hpu hpd
  have eu := pressEdge_congr s _ f GLFW_KEY_UP hpu
  have ed := pressEdge_congr s _ f GLFW_KEY_DOWN hpd
  unfold step
  by_cases hm : modeAfter s f = Mode.NGON
  · have hm1 := m5.trans hm
    have ha := adjustN_ngon _ f hm1 (by rw [m1]; exact h3) (by rw [m1]; exact h64)
    simp only [ha, hadj, eu, ed, hm, m1, m2, m3, m4, m6, hm1]
    by_cases he : pressEdge s f GLFW_KEY_UP ∨ pressEdge s f GLFW_KEY_DOWN
    · simp only [if_pos he, true_and, if_true]
      refine ⟨_, rfl, rfl, rfl, rfl, rfl, rfl, fun _ => rfl, ?_, ?_, rfl, ⟨_, rfl⟩⟩
      · intro k
        simp only [m7]
        by_cases k1 : k = GLFW_KEY_DOWN
        · subst k1; simp [GLFW_KEY_UP, GLFW_KEY_DOWN, GLFW_KEY_ESCAPE, GLFW_KEY_1, GLFW_KEY_2, GLFW_KEY_3]
        · by_cases k2 : k = GLFW_KEY_UP
          · subst k2; simp [GLFW_KEY_UP, GLFW_KEY_DOWN, GLFW_KEY_ESCAPE, GLFW_KEY_1, GLFW_KEY_2, GLFW_KEY_3]
          · simp [k1, k2]
      · simp only [polls_append, m9, polls_destroy, polls_build, polls_render]
        rfl
    · simp only [if_neg he, true_and, if_true, and_false, if_false]
      refine ⟨_, rfl, rfl, rfl, rfl, rfl, rfl, ?_, ?_, ?_, rfl, ⟨_, rfl⟩⟩
      · intro ht
        show (modeKeys _ f).1.title = setWindowTitle Mode.NGON (adjustedN s f)
        rw [m8 ht, hm, adjustedN_no_edge s f he]
      · intro k
        simp only [m7]
        by_cases k1 : k = GLFW_KEY_DOWN
        · subst k1; simp [GLFW_KEY_UP, GLFW_KEY_DOWN, GLFW_KEY_ESCAPE, GLFW_KEY_1, GLFW_KEY_2, GLFW_KEY_3]
        · by_cases k2 : k = GLFW_KEY_UP
          · subst k2; simp [GLFW_KEY_UP, GLFW_KEY_DOWN, GLFW_KEY_ESCAPE, GLFW_KEY_1, GLFW_KEY_2, GLFW_KEY_3]
          · simp [k1, k2]
      · simp only [polls_append, m9, polls_render]
        rfl
  · have hm1 : (modeKeys { s with shouldClose := s.shouldClose || f.closeRequested } f).1.mode
        ≠ Mode.NGON := by rw [m5]; exact hm
    simp only [adjustN_other _ f hm1, hm, if_false, false_and, and_false]
    refine ⟨_, rfl, m5, m1, m2, m3, m4, ?_, ?_, ?_, m6, ⟨_, rfl⟩⟩
    · intro ht
      show (modeKeys _ f).1.title = setWindowTitle (modeKeys _ f).1.mode (modeKeys _ f).1.N
      rw [m8 ht, m5, m1]
    · intro k
      exact m7 k
    · show polls (_ ++ _ ++ _) = _
      simp only [polls_append, m9, polls_render]
      rfl

/-! ## Loop invariant -/

theorem inv_init (gt gq gn : GLNames) (s : State) (h : initState gt gq gn = some s) : Inv s := by
  unfold initState at h
  have hb := makeNGon_of_range 8 (by decide) (by decide) gn
  simp only [hb, Option.some.injEq] at h
  subst h
  exact ⟨show (3 : Int) ≤ 8 by decide, show (8 : Int) ≤ 64 by decide, rfl, gn, rfl⟩

theorem initState_isSome (gt gq gn : GLNames) : ∃ s, initState gt gq gn = some s := by
  unfold initState
  have hb := makeNGon_of_range 8 (by decide) (by decide) gn
  simp only [hb]
  exact ⟨_, rfl⟩

theorem inv_step (s : State) (f : Frame) (r : State × List Effect) (hi : Inv s)
    (hs : step s f = some r) : Inv r.1 := by
  obtain ⟨h3, h64, ht, g, hg⟩ := hi
  obtain ⟨r', hr, hmode, hN, -, -, hngon, htitle, -⟩ := step_spec s f h3 h64
  rw [hs, Option.some.injEq] at hr
  subst hr
  have hrange : 3 ≤ r.1.N ∧ r.1.N ≤ 64 := by
    rw [hN]
    split
    · exact adjustedN_range s f h3 h64
    · exact ⟨h3, h64⟩
  refine ⟨hrange.1, hrange.2, htitle ht, ?_⟩
  by_cases hm : modeAfter s f = Mode.NGON
  · by_cases he : pressEdge s f GLFW_KEY_UP ∨ pressEdge s f GLFW_KEY_DOWN
    · rw [if_pos ⟨hm, he⟩] at hngon
      rw [if_pos hm] at hN
      exact ⟨f.names, by rw [hngon, hN]⟩
    · rw [if_neg (fun h => he h.2)] at hngon
      rw [if_pos hm, adjustedN_no_edge s f he] at hN
      exact ⟨g, by rw [hngon, hN, hg]⟩
  · rw [if_neg (fun h => hm h.1)] at hngon
    rw [if_neg hm] at hN
    exact ⟨g, by rw [hngon, hN, hg]⟩

theorem reachable_inv (s : State) (h : Reachable s) : Inv s := by
  induction h with
  | init gt gq gn s h => exact inv_init gt gq gn s h
  | next s f r _ _ hs ih => exact inv_step s f r ih hs

theorem indexCount_built (g : GLNames) (N : Int) (h3 : 3 ≤ N) (h64 : N ≤ 64) :
    (buildIndexedMesh g (ngonPositions N.toNat) (fanIndices N.toNat)).1.indexCount = 3 * N := by
  show toGLsizei (fanIndices N.toNat).length = 3 * N
  rw [fanIndices_length, toGLsizei_of_lt (by omega)]
  push_cast
  omega

/-! ## The calls of one iteration, in order -/

theorem pollEscape_trace (s : State) (f : Frame) :
    (pollEscape s f).2 = Effect.getKey GLFW_KEY_ESCAPE
      :: (if pressEdge s f GLFW_KEY_ESCAPE then [Effect.glfwSetWindowShouldClose] else []) := by
  by_cases h : pressEdge s f GLFW_KEY_ESCAPE
  · simp [pollEscape, pressedOnce_fired_decide s.prev f GLFW_KEY_ESCAPE s rfl, h]
  · simp [pollEscape, pressedOnce_fired_decide s.prev f GLFW_KEY_ESCAPE s rfl, h]

theorem selectMode_trace (key : Nat) (m : Mode) (s : State) (f : Frame) :
    (selectMode key m s f).2 = Effect.getKey key
      :: (if pressEdge s f key then [Effect.glfwSetWindowTitle (setWindowTitle m s.N)] else []) := by
  by_cases h : pressEdge s f key
  · simp [selectMode, pressedOnce_fired_decide s.prev f key s rfl, h]
  · simp [selectMode, pressedOnce_fired_decide s.prev f key s rfl, h]

theorem modeKeys_trace (s : State) (f : Frame) : (modeKeys s f).2 = keyTrace s f := by
  obtain ⟨a1, -, -, -, -, -, -, a8, -⟩ := pollEscape_fields s f
  obtain ⟨b1, -, -, -, -, -, -, b8, -⟩ :=
    selectMode_fields GLFW_KEY_1 Mode.TRIANGLE (pollEscape s f).1 f
  obtain ⟨c1, -, -, -, -, -, -, c8, -⟩ :=
    selectMode_fields GLFW_KEY_2 Mode.QUAD (selectMode GLFW_KEY_1 Mode.TRIANGLE (pollEscape s f).1 f).1 f
  have e1 : pressEdge (pollEscape s f).1 f GLFW_KEY_1 ↔ pressEdge s f GLFW_KEY_1 :=
    pressEdge_congr _ _ _ _ (by rw [a8]; simp [GLFW_KEY_1, GLFW_KEY_ESCAPE])
  have e2 : pressEdge (selectMode GLFW_KEY_1 Mode.TRIANGLE (pollEscape s f).1 f).1 f GLFW_KEY_2
      ↔ pressEdge s f GLFW_KEY_2 :=
    pressEdge_congr _ _ _ _ (by rw [b8, a8]; simp [GLFW_KEY_1, GLFW_KEY_2, GLFW_KEY_ESCAPE])
  have e3 : pressEdge (selectMode GLFW_KEY_2 Mode.QUAD
        (selectMode GLFW_KEY_1 Mode.TRIANGLE (pollEscape s f).1 f).1 f).1 f GLFW_KEY_3
      ↔ pressEdge s f GLFW_KEY_3 :=
    pressEdge_congr _ _ _ _ (by
      rw [c8, b8, a8]; simp [GLFW_KEY_1, GLFW_KEY_2, GLFW_KEY_3, GLFW_KEY_ESCAPE])
  show (pollEscape s f).2 ++ (selectMode GLFW_KEY_1 Mode.TRIANGLE _ f).2
      ++ (selectMode GLFW_KEY_2 Mode.QUAD _ f).2 ++ (selectMode GLFW_KEY_3 Mode.NGON _ f).2 = _
  rw [pollEscape_trace, selectMode_trace, selectMode_trace, selectMode_trace]
  simp only [e1, e2, e3, a1, b1, c1]
  rfl

theorem step_trace (s : State) (f : Frame) (h3 : 3 ≤ s.N) (h64 : s.N ≤ 64)
    (r : State × List Effect) (hr : step s f = some r) :
    r.2 = [Effect.pollEvents] ++ keyTrace s f ++ adjustTrace s f ++ render r.1 := by
  obtain ⟨m1, -, -, m4, m5, -, m7, -, -⟩ :=
    modeKeys_spec { s with shouldClose := s.shouldClose || f.closeRequested } f
  have hma : modeAfter { s with shouldClose := s.shouldClose || f.closeRequested } f
      = modeAfter s f := rfl
  have hkt : keyTrace { s with shouldClose := s.shouldClose || f.closeRequested } f
      = keyTrace s f := rfl
  have mt := modeKeys_trace { s with shouldClose := s.shouldClose || f.closeRequested } f
  rw [hkt] at mt
  rw [hma] at m5
  simp only [] at m1 m4 m7
  have hpu := m7 GLFW_KEY_UP
  have hpd := m7 GLFW_KEY_DOWN
  simp only [GLFW_KEY_UP, GLFW_KEY_DOWN, GLFW_KEY_ESCAPE, GLFW_KEY_1, GLFW_KEY_2, GLFW_KEY_3,
    Nat.reduceEqDiff, or_self, if_false] at hpu hpd
  have hadj := adjustedN_congr s _ f m1 hpu hpd
  have eu := pressEdge_congr s _ f GLFW_KEY_UP hpu
  have ed := pressEdge_congr s _ f GLFW_KEY_DOWN hpd
  unfold step at hr
  unfold adjustTrace
  by_cases hm : modeAfter s f = Mode.NGON
  · have hm1 := m5.trans hm
    have ha := adjustN_ngon _ f hm1 (by rw [m1]; exact h3) (by rw [m1]; exact h64)
    simp only [ha, hadj, eu, ed, hm1, mt, Option.some.injEq] at hr
    rw [if_pos hm]
    by_cases he : pressEdge s f GLFW_KEY_UP ∨ pressEdge s f GLFW_KEY_DOWN
    · simp only [if_pos he] at hr ⊢
      rw [← hr]
      simp [m4]
    · simp only [if_neg he] at hr ⊢
      rw [← hr]
      simp
  · have hm1 : (modeKeys { s with shouldClose := s.shouldClose || f.closeRequested } f).1.mode
        ≠ Mode.NGON := by rw [m5]; exact hm
    simp only [adjustN_other _ f hm1, mt, Option.some.injEq] at hr
    rw [if_neg hm, ← hr]

/-! ## Claims -/

/-- C1: for every integer `N` with `3 ≤ N ≤ 64`, `makeNGon(N)` runs to
completion; the position vector it builds from holds `3 * (N + 1)` floats
(`N + 1` vertices), the index vector holds `3 * N` indices, every index is
smaller than `N + 1`, and the mesh it returns has `indexCount = 3 * N`. -/
theorem makeNGon_counts (N : Int) (h3 : 3 ≤ N) (h64 : N ≤ 64) :
    ∃ pos idx, makeNGonData N = some (pos, idx)
      ∧ (∀ g, makeNGon N g = some (buildIndexedMesh g pos idx))
      ∧ (pos.length : Int) = 3 * (N + 1)
      ∧ (idx.length : Int) = 3 * N
      ∧ (∀ x ∈ idx, (x : Int) < N + 1)
      ∧ (∀ g, (buildIndexedMesh g pos idx).1.indexCount = 3 * N) := by
  obtain ⟨n, rfl⟩ : ∃ n : Nat, N = (n : Int) := ⟨N.toNat, by omega⟩
  have hd := makeNGonData_eq n (by omega)
  refine ⟨ngonPositions n, fanIndices n, hd, ?_, ?_, ?_, ?_, ?_⟩
  · intro g
    unfold makeNGon
    rw [hd]
  · rw [ngonPositions_length]; push_cast; ring
  · rw [fanIndices_length]; push_cast; ring
  · intro x hx
    have := mem_fanIndices hx
    omega
  · intro g
    show toGLsizei (fanIndices n).length = 3 * (n : Int)
    rw [fanIndices_length, toGLsizei_of_lt (by omega)]
    push_cast; ring

/-- Witness for C1 at `N = 5`. -/
theorem makeNGon_counts_witness :
    ∃ pos idx, makeNGonData 5 = some (pos, idx)
      ∧ (∀ g, makeNGon 5 g = some (buildIndexedMesh g pos idx))
      ∧ (pos.length : Int) = 3 * (5 + 1)
      ∧ (idx.length : Int) = 3 * 5
      ∧ (∀ x ∈ idx, (x : Int) < 5 + 1)
      ∧ (∀ g, (buildIndexedMesh g pos idx).1.indexCount = 3 * 5) :=
  makeNGon_counts 5 (by decide) (by decide)

/-- C2, as stated, fails: `(N+1)*3` is computed in `int` for `pos.reserve`,
and for `N = 715827882` it is `2147483649`, which is not an `int` (undefined
behaviour; where the product wraps around it is negative and `reserve` throws
`std::length_error`), so `makeNGon` does not get as far as building an index
list. -/
theorem makeNGon_fan_overflow :
    (3 : Int) ≤ 715827882 ∧ (715827882 : Int) ≤ INT_MAX
      ∧ makeNGonData 715827882 = none
      ∧ ∀ g, makeNGon 715827882 g = none := by
  have h : makeNGonData 715827882 = none := by decide
  refine ⟨by decide, by decide, h, ?_⟩
  intro g
  unfold makeNGon
  rw [h]

/-- C2 (amended): for every `N ≥ 3` for which `3 * (N + 1)` is an `int`, the
index vector built by `makeNGon(N)` is the concatenation, for `i = 1 .. N` in
increasing order, of the triples `(0, i, (i mod N) + 1)`; its last triple is
`(0, N, 1)`; read as triangles it is the list of the `N` triangles
`(0, i, (i mod N) + 1)`; and for every `k` in `1 .. N` exactly one of these
triangles has the ring edge between `k` and `(k mod N) + 1` as its outer edge. -/
theorem makeNGon_fan (N : Nat) (h3 : 3 ≤ N) (hcap : 3 * ((N : Int) + 1) ≤ INT_MAX) :
    ∃ pos idx, makeNGonData (N : Int) = some (pos, idx)
      ∧ (∀ g, makeNGon (N : Int) g = some (buildIndexedMesh g pos idx))
      ∧ idx = (List.range' 1 N).flatMap (fun i => [0, i, i % N + 1])
      ∧ idx.drop (3 * (N - 1)) = [0, N, 1]
      ∧ triangles idx = (List.range' 1 N).map (fun i => (0, i, i % N + 1))
      ∧ (triangles idx).length = N
      ∧ ∀ k, 1 ≤ k → k ≤ N →
          (triangles idx).countP (fun t => hasOuterEdge t k (k % N + 1)) = 1 := by
  have hN : 3 * (N + 1) ≤ 2147483647 := by
    simp only [INT_MAX] at hcap; omega
  have hd := makeNGonData_eq N hN
  refine ⟨ngonPositions N, fanIndices N, hd, ?_, rfl, ?_, triangles_fanIndices N, ?_, ?_⟩
  · intro g
    unfold makeNGon
    rw [hd]
  · exact fanIndices_drop_last N (by omega)
  · rw [triangles_fanIndices]; simp
  · intro k hk1 hkN
    exact countP_outerEdge N k h3 hk1 hkN

/-- Witness for the amended C2 at `N = 6`. -/
theorem makeNGon_fan_witness :
    ∃ pos idx, makeNGonData ((6 : Nat) : Int) = some (pos, idx)
      ∧ (∀ g, makeNGon ((6 : Nat) : Int) g = some (buildIndexedMesh g pos idx))
      ∧ idx = (List.range' 1 6).flatMap (fun i => [0, i, i % 6 + 1])
      ∧ idx.drop (3 * (6 - 1)) = [0, 6, 1]
      ∧ triangles idx = (List.range' 1 6).map (fun i => (0, i, i % 6 + 1))
      ∧ (triangles idx).length = 6
      ∧ ∀ k, 1 ≤ k → k ≤ 6 →
          (triangles idx).countP (fun t => hasOuterEdge t k (k % 6 + 1)) = 1 :=
  makeNGon_fan 6 (by decide) (by decide)

/-- C7: `makeTriangle` uploads exactly 9 floats (3 positions) and the index
list `[0,1,2]`, one triangle; `makeQuad` uploads exactly 12 floats
(4 positions) and the index list `[0,1,2,0,2,3]`, the two triangles `(0,1,2)`
and `(0,2,3)`, which both contain the vertices 0 and 2; in both, every index
is smaller than the number of positions. -/
theorem makeTriangle_makeQuad_data (g : GLNames) :
    (makeTriangle g = buildIndexedMesh g trianglePos triangleIdx
      ∧ Effect.arrayBufferData 36 trianglePos ∈ (makeTriangle g).2
      ∧ Effect.elementBufferData 12 triangleIdx ∈ (makeTriangle g).2
      ∧ trianglePos.length = 9
      ∧ triangleIdx = [0, 1, 2]
      ∧ triangles triangleIdx = [(0, 1, 2)]
      ∧ (makeTriangle g).1.indexCount = 3
      ∧ ∀ i ∈ triangleIdx, i < trianglePos.length / 3)
    ∧ (makeQuad g = buildIndexedMesh g quadPos quadIdx
      ∧ Effect.arrayBufferData 48 quadPos ∈ (makeQuad g).2
      ∧ Effect.elementBufferData 24 quadIdx ∈ (makeQuad g).2
      ∧ quadPos.length = 12
      ∧ quadIdx = [0, 1, 2, 0, 2, 3]
      ∧ triangles quadIdx = [(0, 1, 2), (0, 2, 3)]
      ∧ (∀ t ∈ triangles quadIdx, (t.1 = 0 ∨ t.2.1 = 0 ∨ t.2.2 = 0) ∧ (t.1 = 2 ∨ t.2.1 = 2 ∨ t.2.2 = 2))
      ∧ (makeQuad g).1.indexCount = 6
      ∧ ∀ i ∈ quadIdx, i < quadPos.length / 3) := by
  refine ⟨⟨rfl, ?_, ?_, rfl, rfl, rfl, rfl, by decide⟩,
    ⟨rfl, ?_, ?_, rfl, rfl, rfl, by decide, rfl, by decide⟩⟩
  · simp [makeTriangle, buildIndexedMesh, trianglePos]
  · simp [makeTriangle, buildIndexedMesh, triangleIdx]
  · simp [makeQuad, buildIndexedMesh, quadPos]
  · simp [makeQuad, buildIndexedMesh, quadIdx]

/-- C8: `destroy` zeroes all three handles and `indexCount`; a second
`destroy` returns the same mesh and issues no GPU call; on a default
(all-zero) mesh `destroy` returns that mesh and issues no GPU call; and a
delete call is issued exactly for the handles that are not zero. -/
theorem destroy_idempotent (m : MeshGL) :
    (m.destroy.1.VAO = 0 ∧ m.destroy.1.VBO = 0 ∧ m.destroy.1.EBO = 0
      ∧ m.destroy.1.indexCount = 0)
    ∧ m.destroy.1.destroy.1 = m.destroy.1
    ∧ m.destroy.1.destroy.2 = []
    ∧ (({} : MeshGL).destroy.1 = ({} : MeshGL) ∧ ({} : MeshGL).destroy.2 = [])
    ∧ (({} : MeshGL).VAO = 0 ∧ ({} : MeshGL).VBO = 0 ∧ ({} : MeshGL).EBO = 0
        ∧ ({} : MeshGL).indexCount = 0)
    ∧ (Effect.deleteBuffers m.EBO ∈ m.destroy.2 ↔ m.EBO ≠ 0)
    ∧ (Effect.deleteBuffers m.VBO ∈ m.destroy.2 ↔ m.VBO ≠ 0)
    ∧ (Effect.deleteVertexArrays m.VAO ∈ m.destroy.2 ↔ m.VAO ≠ 0) := by
  refine ⟨⟨rfl, rfl, rfl, rfl⟩, rfl, rfl, ⟨rfl, rfl⟩, ⟨rfl, rfl, rfl, rfl⟩, ?_, ?_, ?_⟩
  · by_cases h1 : m.EBO = 0 <;> by_cases h2 : m.VBO = 0 <;> by_cases h3 : m.VAO = 0 <;>
      simp [MeshGL.destroy, h1, h2, h3] <;> omega
  · by_cases h1 : m.EBO = 0 <;> by_cases h2 : m.VBO = 0 <;> by_cases h3 : m.VAO = 0 <;>
      simp [MeshGL.destroy, h1, h2, h3] <;> omega
  · by_cases h1 : m.EBO = 0 <;> by_cases h2 : m.VBO = 0 <;> by_cases h3 : m.VAO = 0 <;>
      simp [MeshGL.destroy, h1, h2, h3]

/-- C4: for every key and every sequence `cs` of polled key states, starting
from the all-zero table, the `i`-th evaluation of `pressedOnce` fires exactly
when `cs[i]` is pressed and `i = 0` or `cs[i-1]` is not pressed; an evaluation
for another key does not touch this key's remembered state; a hold of `n + 1`
polls that follows a poll that is not pressed (or follows nothing) yields one
event, on its first poll; so a hold of `n ≥ 1` polls yields exactly one event,
and a hold, a release and a second hold yield exactly two. -/
theorem pressedOnce_edges (key : Nat) (cs : List Int) :
    (pollKey key prevInit cs).length = cs.length
    ∧ (∀ i, (pollKey key prevInit cs)[i]? = some true ↔
        (cs[i]? = some GLFW_PRESS ∧ (i = 0 ∨ cs[i - 1]? ≠ some GLFW_PRESS)))
    ∧ (∀ (prev : Nat → Int) (other : Nat) (cur : Int), other ≠ key →
        (pressedOnce prev other cur).2 key = prev key)
    ∧ (∀ (prev : Nat → Int) (cur : Int), (pressedOnce prev key cur).2 key = cur)
    ∧ (∀ n, cs.getLast? ≠ some GLFW_PRESS →
        pollKey key prevInit (cs ++ List.replicate (n + 1) GLFW_PRESS)
          = pollKey key prevInit cs ++ true :: List.replicate n false)
    ∧ (∀ n, 1 ≤ n →
        (pollKey key prevInit (List.replicate n GLFW_PRESS)).count true = 1)
    ∧ (∀ n m l, 1 ≤ n → 1 ≤ m → 1 ≤ l →
        (pollKey key prevInit (List.replicate n GLFW_PRESS ++ List.replicate m GLFW_RELEASE
          ++ List.replicate l GLFW_PRESS)).count true = 2) := by
  refine ⟨pollKey_length key cs prevInit, ?_, ?_, ?_, ?_, ?_, ?_⟩
  · intro i
    rw [pollKey_getElem]
    cases i with
    | zero => simp [prevInit, GLFW_PRESS]
    | succ j => simp
  · intro prev other cur h
    exact pressedOnce_table_other prev other key cur (Ne.symm h)
  · intro prev cur
    exact pressedOnce_table_self prev key cur
  · intro n h
    exact pollKey_hold_after key cs n h
  · intro n hn
    obtain ⟨n, rfl⟩ : ∃ k, n = k + 1 := ⟨n - 1, by omega⟩
    rw [pollKey_press key n prevInit (by simp [prevInit, GLFW_PRESS])]
    simp [List.count_cons, count_true_replicate_false]
  · intro n m l hn hm hl
    obtain ⟨n, rfl⟩ : ∃ k, n = k + 1 := ⟨n - 1, by omega⟩
    obtain ⟨m, rfl⟩ : ∃ k, m = k + 1 := ⟨m - 1, by omega⟩
    obtain ⟨l, rfl⟩ : ∃ k, l = k + 1 := ⟨l - 1, by omega⟩
    have hlast : (List.replicate (n + 1) GLFW_PRESS ++ List.replicate (m + 1) GLFW_RELEASE).getLast?
        ≠ some GLFW_PRESS := by
      rw [List.replicate_succ' m, ← List.append_assoc, List.getLast?_append]
      simp [GLFW_RELEASE, GLFW_PRESS]
    rw [pollKey_hold_after key _ l hlast, pollKey_append, pollKey_released,
      pollKey_press key n prevInit (by simp [prevInit, GLFW_PRESS])]
    simp [List.count_cons, List.count_append, count_true_replicate_false]

/-- Witness for C4: key UP polled as released, pressed, pressed, released,
pressed; a hold of three polls; two holds with a release in between; and a
hold after a released poll. -/
theorem pressedOnce_edges_witness :
    pollKey GLFW_KEY_UP prevInit [0, 1, 1, 0, 1] = [false, true, false, false, true]
    ∧ (pollKey GLFW_KEY_UP prevInit (List.replicate 3 GLFW_PRESS)).count true = 1
    ∧ (pollKey GLFW_KEY_UP prevInit (List.replicate 2 GLFW_PRESS ++ List.replicate 1 GLFW_RELEASE
          ++ List.replicate 4 GLFW_PRESS)).count true = 2
    ∧ pollKey GLFW_KEY_UP prevInit ([1, 0] ++ List.replicate (2 + 1) GLFW_PRESS)
        = pollKey GLFW_KEY_UP prevInit [1, 0] ++ true :: List.replicate 2 false :=
  ⟨by decide,
   (pressedOnce_edges GLFW_KEY_UP []).2.2.2.2.2.1 3 (by decide),
   (pressedOnce_edges GLFW_KEY_UP []).2.2.2.2.2.2 2 1 4 (by decide) (by decide) (by decide),
   (pressedOnce_edges GLFW_KEY_UP [1, 0]).2.2.2.2.1 2 (by decide)⟩

/-- C3: from any state with `3 ≤ N ≤ 64`, one loop iteration with any key
states runs to completion and leaves `N` in `[3, 64]`.  With the block of
lines 199-210 entered (the mode after the mode keys is N-gon): a press edge on
UP alone leaves `N = 64` at 64 and gives `N + 1` otherwise; a press edge on
DOWN alone leaves `N = 3` at 3 and gives `N - 1` otherwise; no edge on either
leaves `N`.  The mode is N-gon there when it was N-gon and the keys 1 and 2
have no press edge, or when key 3 has one; in any other mode `N` is unchanged. -/
theorem step_clamps_N (s : State) (f : Frame) (h3 : 3 ≤ s.N) (h64 : s.N ≤ 64) :
    ∃ r, step s f = some r
      ∧ (3 ≤ r.1.N ∧ r.1.N ≤ 64)
      ∧ r.1.mode = modeAfter s f
      ∧ (modeAfter s f = Mode.NGON → pressEdge s f GLFW_KEY_UP → ¬ pressEdge s f GLFW_KEY_DOWN →
          r.1.N = if s.N = 64 then 64 else s.N + 1)
      ∧ (modeAfter s f = Mode.NGON → ¬ pressEdge s f GLFW_KEY_UP → pressEdge s f GLFW_KEY_DOWN →
          r.1.N = if s.N = 3 then 3 else s.N - 1)
      ∧ (modeAfter s f = Mode.NGON → ¬ pressEdge s f GLFW_KEY_UP → ¬ pressEdge s f GLFW_KEY_DOWN →
          r.1.N = s.N)
      ∧ (modeAfter s f = Mode.NGON → pressEdge s f GLFW_KEY_UP → pressEdge s f GLFW_KEY_DOWN →
          r.1.N = max 3 (min 64 (s.N + 1) - 1))
      ∧ (modeAfter s f ≠ Mode.NGON → r.1.N = s.N)
      ∧ (s.mode = Mode.NGON → ¬ pressEdge s f GLFW_KEY_1 → ¬ pressEdge s f GLFW_KEY_2 →
          modeAfter s f = Mode.NGON)
      ∧ (pressEdge s f GLFW_KEY_3 → modeAfter s f = Mode.NGON) := by
  obtain ⟨r, hr, hmode, hN, -⟩ := step_spec s f h3 h64
  have hrange : 3 ≤ r.1.N ∧ r.1.N ≤ 64 := by
    rw [hN]
    split
    · exact adjustedN_range s f h3 h64
    · exact ⟨h3, h64⟩
  refine ⟨r, hr, hrange, hmode, ?_, ?_, ?_, ?_, ?_, ?_, ?_⟩
  · intro hm hu hd
    rw [hN, if_pos hm]
    simp only [adjustedN, upN, downN, if_pos hu, if_neg hd]
    split <;> omega
  · intro hm hu hd
    rw [hN, if_pos hm]
    simp only [adjustedN, upN, downN, if_neg hu, if_pos hd]
    split <;> omega
  · intro hm hu hd
    rw [hN, if_pos hm]
    simp only [adjustedN, upN, downN, if_neg hu, if_neg hd]
  · intro hm hu hd
    rw [hN, if_pos hm]
    simp only [adjustedN, upN, downN, if_pos hu, if_pos hd]
  · intro hm
    rw [hN, if_neg hm]
  · intro hm h1 h2
    unfold modeAfter
    rw [if_neg h2, if_neg h1]
    split
    · rfl
    · exact hm
  · intro hk
    unfold modeAfter
    rw [if_pos hk]

/-- Witness for C3: N-gon mode at `N = 64`, only UP down. -/
theorem step_clamps_N_witness :
    ∃ r, step (sampleState Mode.NGON 64) (keyFrame [GLFW_KEY_UP] rebuildNames) = some r
      ∧ (3 ≤ r.1.N ∧ r.1.N ≤ 64) ∧ r.1.N = 64 := by
  obtain ⟨r, hr, hrange, -, hup, -⟩ :=
    step_clamps_N (sampleState Mode.NGON 64) (keyFrame [GLFW_KEY_UP] rebuildNames)
      (by decide) (by decide)
  exact ⟨r, hr, hrange, hup (by decide) (by decide) (by decide)⟩

/-- C5, as stated, fails: in the state in which the loop is entered (Triangle
mode) with UP down, the iteration asks for ESC, 1, 2, 3 only, not for UP or
DOWN, and the remembered state of UP stays 0 while the key is pressed. -/
theorem up_not_polled_outside_ngon :
    (startState.bind (fun s => step s (keyFrame [GLFW_KEY_UP] rebuildNames))).map
        (fun r => (r.1.mode, polls r.2, r.1.prev GLFW_KEY_UP))
      = some (Mode.TRIANGLE, [GLFW_KEY_ESCAPE, GLFW_KEY_1, GLFW_KEY_2, GLFW_KEY_3], 0)
    ∧ (keyFrame [GLFW_KEY_UP] rebuildNames).key GLFW_KEY_UP = GLFW_PRESS
    ∧ GLFW_PRESS ≠ 0 := by
  refine ⟨by decide!, by decide, by decide⟩

/-- C5 (amended): in every loop iteration from a state with `3 ≤ N ≤ 64`, the
calls are, in this order: `glfwPollEvents`; for each of ESC, 1, 2, 3 the query
of the key, followed at once by that key's own action if it has a press edge;
then, only if the mode after the mode keys is N-gon, the queries of UP and
DOWN, followed by the rebuild if either has a press edge; then the drawing.
So ESC, 1, 2 and 3 are evaluated exactly once whatever the mode, and afterwards
their remembered state is the state they had in that frame; UP and DOWN are
evaluated exactly once when the mode after the mode keys is N-gon, with the
same effect, and not at all otherwise, in which case their remembered state is
unchanged.  All six keys are within the bounds of the table `prev`. -/
theorem polls_per_frame (s : State) (f : Frame) (h3 : 3 ≤ s.N) (h64 : s.N ≤ 64) :
    ∃ r, step s f = some r
      ∧ r.1.mode = modeAfter s f
      ∧ r.2 = [Effect.pollEvents] ++ keyTrace s f ++ adjustTrace s f ++ render r.1
      ∧ polls r.2 = [GLFW_KEY_ESCAPE, GLFW_KEY_1, GLFW_KEY_2, GLFW_KEY_3]
          ++ (if r.1.mode = Mode.NGON then [GLFW_KEY_UP, GLFW_KEY_DOWN] else [])
      ∧ (∀ k ∈ [GLFW_KEY_ESCAPE, GLFW_KEY_1, GLFW_KEY_2, GLFW_KEY_3],
          (polls r.2).count k = 1 ∧ r.1.prev k = f.key k)
      ∧ (∀ k ∈ [GLFW_KEY_UP, GLFW_KEY_DOWN],
          (r.1.mode = Mode.NGON → (polls r.2).count k = 1 ∧ r.1.prev k = f.key k)
          ∧ (r.1.mode ≠ Mode.NGON → (polls r.2).count k = 0 ∧ r.1.prev k = s.prev k))
      ∧ (∀ k ∈ trackedKeys, k ≤ GLFW_KEY_LAST) := by
  obtain ⟨r, hr, hmode, -, -, -, -, -, hprev, hpolls, -⟩ := step_spec s f h3 h64
  rw [← hmode] at hpolls
  refine ⟨r, hr, hmode, step_trace s f h3 h64 r hr, hpolls, ?_, ?_, by decide⟩
  · intro k hk
    rw [hpolls, hprev]
    simp only [List.mem_cons, List.mem_singleton, List.not_mem_nil, or_false] at hk
    by_cases hm : r.1.mode = Mode.NGON
    · rcases hk with rfl | rfl | rfl | rfl <;>
        simp [hm, GLFW_KEY_ESCAPE, GLFW_KEY_1, GLFW_KEY_2, GLFW_KEY_3, GLFW_KEY_UP, GLFW_KEY_DOWN]
    · rcases hk with rfl | rfl | rfl | rfl <;>
        simp [hm, GLFW_KEY_ESCAPE, GLFW_KEY_1, GLFW_KEY_2, GLFW_KEY_3]
  · intro k hk
    rw [hpolls, hprev, ← hmode]
    simp only [List.mem_cons, List.mem_singleton, List.not_mem_nil, or_false] at hk
    constructor
    · intro hm
      rcases hk with rfl | rfl <;>
        simp [hm, GLFW_KEY_ESCAPE, GLFW_KEY_1, GLFW_KEY_2, GLFW_KEY_3, GLFW_KEY_UP, GLFW_KEY_DOWN]
    · intro hm
      rcases hk with rfl | rfl <;>
        simp [hm, GLFW_KEY_ESCAPE, GLFW_KEY_1, GLFW_KEY_2, GLFW_KEY_3, GLFW_KEY_UP, GLFW_KEY_DOWN]

/-- Witness for the amended C5: N-gon mode at `N = 8`, UP down. -/
theorem polls_per_frame_witness :
    ∃ r, step (sampleState Mode.NGON 8) (keyFrame [GLFW_KEY_UP] rebuildNames) = some r
      ∧ polls r.2 = [GLFW_KEY_ESCAPE, GLFW_KEY_1, GLFW_KEY_2, GLFW_KEY_3]
          ++ (if r.1.mode = Mode.NGON then [GLFW_KEY_UP, GLFW_KEY_DOWN] else []) := by
  obtain ⟨r, hr, -, -, hp, -⟩ :=
    polls_per_frame (sampleState Mode.NGON 8) (keyFrame [GLFW_KEY_UP] rebuildNames)
      (by decide) (by decide)
  exact ⟨r, hr, hp⟩

/-- C9: in every state reachable from the initial state, that is, at the end
of each loop iteration, the window title is "Lab 1 - Polygons | Mode: "
followed by "Triangle" in Triangle mode, "Quad" in Quad mode, and
"N-gon (N=" the decimal `N` ")" in N-gon mode; and every loop iteration from
such a state runs to completion. -/
theorem title_reflects_mode (s : State) (h : Reachable s) :
    s.title = titleText s.mode s.N
    ∧ (s.mode = Mode.TRIANGLE → s.title = "Lab 1 - Polygons | Mode: Triangle")
    ∧ (s.mode = Mode.QUAD → s.title = "Lab 1 - Polygons | Mode: Quad")
    ∧ (s.mode = Mode.NGON →
        s.title = "Lab 1 - Polygons | Mode: N-gon (N=" ++ toString s.N ++ ")")
    ∧ (∀ f, ∃ r, step s f = some r ∧ r.1.title = titleText r.1.mode r.1.N) := by
  obtain ⟨h3, h64, ht, hg⟩ := reachable_inv s h
  have h1 : s.title = titleText s.mode s.N := by rw [ht, setWindowTitle_eq_titleText]
  refine ⟨h1, ?_, ?_, ?_, ?_⟩
  · intro hm; rw [h1, hm]; rfl
  · intro hm; rw [h1, hm]; rfl
  · intro hm; rw [h1, hm]; rfl
  · intro f
    obtain ⟨r, hr, -, -, -, -, -, htitle, -⟩ := step_spec s f h3 h64
    exact ⟨r, hr, by rw [htitle ht, setWindowTitle_eq_titleText]⟩

/-- Witness for C9: the state in which the loop is entered. -/
theorem title_reflects_mode_witness :
    ∃ s, startState = some s ∧ s.title = "Lab 1 - Polygons | Mode: Triangle" := by
  obtain ⟨s, hs⟩ := initState_isSome ⟨1, 2, 3⟩ ⟨4, 5, 6⟩ ⟨7, 8, 9⟩
  have hm : s.mode = Mode.TRIANGLE := by
    have h := hs
    unfold initState at h
    simp only [makeNGon_of_range 8 (by decide) (by decide), Option.some.injEq] at h
    rw [← h]
  exact ⟨s, hs, (title_reflects_mode s (Reachable.init _ _ _ s hs)).2.1 hm⟩

/-- C10: in every state reachable from the initial state, the N-gon mesh is
the one `makeNGon` builds for the current `N` and its `indexCount` is `3 * N`;
in N-gon mode it is the mesh that is drawn, with `3 * N` indices; every loop
iteration runs to completion, and when the mode after the mode keys is not
N-gon it leaves `N` and the N-gon mesh unchanged (so `N` changes only in
iterations whose mode after the mode keys is N-gon), while in N-gon mode it
draws `3 * N` indices for the `N` it ends with. -/
theorem ngon_mesh_tracks_N (s : State) (h : Reachable s) :
    s.ngon.indexCount = 3 * s.N
    ∧ (∃ g pos idx, makeNGonData s.N = some (pos, idx)
        ∧ makeNGon s.N g = some (buildIndexedMesh g pos idx)
        ∧ s.ngon = (buildIndexedMesh g pos idx).1)
    ∧ (s.mode = Mode.NGON →
        drawMesh s = s.ngon ∧ Effect.drawElements (3 * s.N) ∈ render s)
    ∧ (∀ f, ∃ r, step s f = some r
        ∧ r.1.mode = modeAfter s f
        ∧ r.1.ngon.indexCount = 3 * r.1.N
        ∧ (r.1.mode ≠ Mode.NGON → r.1.N = s.N ∧ r.1.ngon = s.ngon)
        ∧ (r.1.N ≠ s.N → r.1.mode = Mode.NGON)
        ∧ (r.1.mode = Mode.NGON → Effect.drawElements (3 * r.1.N) ∈ r.2)) := by
  have key : ∀ t : State, Inv t →
      t.ngon.indexCount = 3 * t.N ∧
      (t.mode = Mode.NGON → drawMesh t = t.ngon ∧ Effect.drawElements (3 * t.N) ∈ render t) := by
    intro t ⟨t3, t64, _, g, hg⟩
    have hc : t.ngon.indexCount = 3 * t.N := by rw [hg, indexCount_built g t.N t3 t64]
    refine ⟨hc, ?_⟩
    intro hm
    have hd : drawMesh t = t.ngon := by
      unfold drawMesh
      simp [hm]
    refine ⟨hd, ?_⟩
    unfold render
    rw [hd, hc]
    simp
  have hi := reachable_inv s h
  obtain ⟨h3, h64, ht, g, hg⟩ := hi
  refine ⟨(key s ⟨h3, h64, ht, g, hg⟩).1, ?_, (key s ⟨h3, h64, ht, g, hg⟩).2, ?_⟩
  · obtain ⟨n, hn⟩ : ∃ n : Nat, s.N = (n : Int) := ⟨s.N.toNat, by omega⟩
    refine ⟨g, ngonPositions s.N.toNat, fanIndices s.N.toNat, ?_,
      makeNGon_of_range s.N h3 h64 g, hg⟩
    rw [hn, Int.toNat_ofNat]
    exact makeNGonData_eq n (by omega)
  · intro f
    obtain ⟨r, hr, hmode, hN, -, -, hngon, -, -, -, -, pre, hpre⟩ := step_spec s f h3 h64
    have hir : Inv r.1 := inv_step s f r ⟨h3, h64, ht, g, hg⟩ hr
    refine ⟨r, hr, hmode, (key r.1 hir).1, ?_, ?_, ?_⟩
    · intro hm
      rw [hmode] at hm
      rw [hN, hngon, if_neg hm, if_neg (fun h => hm h.1)]
      exact ⟨rfl, rfl⟩
    · intro hne
      by_contra hm
      rw [hmode] at hm
      rw [hN, if_neg hm] at hne
      exact hne rfl
    · intro hm
      rw [hpre]
      exact List.mem_append_right _ ((key r.1 hir).2 hm).2

/-- Witness for C10: the state in which the loop is entered. -/
theorem ngon_mesh_tracks_N_witness :
    ∃ s, startState = some s ∧ s.ngon.indexCount = 3 * s.N := by
  obtain ⟨s, hs⟩ := initState_isSome ⟨1, 2, 3⟩ ⟨4, 5, 6⟩ ⟨7, 8, 9⟩
  exact ⟨s, hs, (ngon_mesh_tracks_N s (Reachable.init _ _ _ s hs)).1⟩

/-- C6: from the initial state (mode Triangle, `N = 8`, title ending in
"Triangle"), one press of key 3 gives mode N-gon and a title containing
"N=8"; six further discrete UP presses give `N = 14` and an N-gon mesh built
from 45 floats (15 positions) and 42 indices; twelve further discrete DOWN
presses give `N = 3` and a mesh built from 12 floats (4 positions) and
9 indices.  A press is one frame with the key down and one frame without; the
same holds when every press is held for three frames and followed by two. -/
theorem scenario_press_3_up_6_down_12 :
    (startState.map (fun s => (s.mode, s.N, s.title))
        = some (Mode.TRIANGLE, 8, "Lab 1 - Polygons | Mode: Triangle")
      ∧ "Triangle".toList <:+ "Lab 1 - Polygons | Mode: Triangle".toList)
    ∧ ((observe (scenario 1 1 0 0)).map (fun o => (o.mode, o.N, o.title))
        = some (Mode.NGON, 8, "Lab 1 - Polygons | Mode: N-gon (N=8)")
      ∧ "N=8".toList <:+: "Lab 1 - Polygons | Mode: N-gon (N=8)".toList)
    ∧ observe (scenario 1 1 6 0)
        = some { mode := Mode.NGON, N := 14, title := "Lab 1 - Polygons | Mode: N-gon (N=14)",
                 ngon := { VAO := 7, VBO := 8, EBO := 9, indexCount := 42 },
                 positionFloats := some (3 * 15), indices := some 42 }
    ∧ observe (scenario 1 1 6 12)
        = some { mode := Mode.NGON, N := 3, title := "Lab 1 - Polygons | Mode: N-gon (N=3)",
                 ngon := { VAO := 7, VBO := 8, EBO := 9, indexCount := 9 },
                 positionFloats := some (3 * 4), indices := some 9 }
    ∧ observe (scenario 3 2 6 0)
        = some { mode := Mode.NGON, N := 14, title := "Lab 1 - Polygons | Mode: N-gon (N=14)",
                 ngon := { VAO := 7, VBO := 8, EBO := 9, indexCount := 42 },
                 positionFloats := some (3 * 15), indices := some 42 }
    ∧ observe (scenario 3 2 6 12)
        = some { mode := Mode.NGON, N := 3, title := "Lab 1 - Polygons | Mode: N-gon (N=3)",
                 ngon := { VAO := 7, VBO := 8, EBO := 9, indexCount := 9 },
                 positionFloats := some (3 * 4), indices := some 9 } := by
  refine ⟨⟨by decide!, by decide!⟩, ⟨by decide!, by decide!⟩, by decide!, by decide!,
    by decide!, by decide!⟩

end Lab1
